import Mathlib

set_option maxHeartbeats 1000000
set_option maxRecDepth 8000

/-
Verification development for the maya class-file toolkit.

Strings are modelled as lists of Unicode code points (Nat); byte streams as
lists of Nat (each < 256 in well-formed inputs).  Rust panics
(panic!/unimplemented!/todo!/unreachable!/expect/index-out-of-bounds and
debug-mode arithmetic-overflow aborts) are modelled as the distinguished
error `Err.panicked k`, so that a returned error value and a process abort
stay distinguishable.  Machine integers are Nat with explicit wrap-arounds
written out at the points where the Rust code can overflow.
-/

deriving instance DecidableEq for Except

/-- Errors of the modified-UTF-8 codec (crate maya-mutf8, enum MUTFError).
FromUTF8Err abstracts the payload of the wrapped FromUtf8Error. -/
inductive MUTFError
  | NullByteInInput
  | CodepointBadInputLength (n : Nat)
  | FromUTF8Err
  | InvalidEncoding
deriving DecidableEq

/-- Byte sequence the encoder (maya-mutf8 encode, lines 22-52) emits for one
code point c.  The Rust match arms are overlapping ranges tried in order, so
the translation is an if-chain.  An `as u8` cast is `% 256`; bit operators
keep Rust precedence (`as` binds tighter than `&`, which binds tighter
than `|`).  Note the 3-byte arm guard is `c <= 0x7FFF` in the source, not
`c <= 0xFFFF`. -/
def encChar (c : Nat) : List Nat :=
  if c = 0 then [0xC0, 0x80]
  else if c ≤ 0x7F then [c % 256]
  else if c ≤ 0x7FF then
    [0xC0 ||| (0x1F &&& ((c >>> 6) % 256)), 0x80 ||| ((0x3F &&& c) % 256)]
  else if c ≤ 0x7FFF then
    [0xE0 ||| (0x0F &&& ((c >>> 12) % 256)),
     0x80 ||| (0x3F &&& ((c >>> 6) % 256)),
     0x80 ||| ((0x3F &&& c) % 256)]
  else
    [0xED,
     0xA0 ||| (((c >>> 16) % 256) &&& 0x0F),
     0x80 ||| (((c >>> 10) % 256) &&& 0x3F),
     0xED,
     0xB0 ||| (((c >>> 6) % 256) &&& 0x0F),
     0x80 ||| ((c &&& 0x3F) % 256)]

/-- maya-mutf8 encode: concatenation of the per-character byte sequences. -/
def mutf8Encode (s : List Nat) : List Nat :=
  s.flatMap encChar

/-- One step of the SIMD fast path of decode (lines 63-72): while at least 16
bytes remain and the next 16 bytes are all < 0x80, bulk-copy them.  The gas
argument only bounds the iteration count (the loop advances 16 bytes per
step, so gas = input length always suffices); it makes the recursion
structural.  Returns (copied prefix, remaining input). -/
def fastSkipAux : Nat → List Nat → List Nat × List Nat
  | 0, bs => ([], bs)
  | gas + 1, bs =>
    if 16 ≤ bs.length ∧ (bs.take 16).all (fun b => b < 0x80) then
      let p := fastSkipAux gas (bs.drop 16)
      (bs.take 16 ++ p.1, p.2)
    else ([], bs)

/-- The SIMD fast path of decode, entered with the whole input. -/
def fastSkip (bs : List Nat) : List Nat × List Nat :=
  fastSkipAux bs.length bs

/-- The scalar loop of decode (maya-mutf8 decode, lines 74-136), producing
the output byte vector.  The nested list patterns mirror the source's
length checks: the 2-byte arm needs one more byte, the 3-byte arm two more,
and the 6-byte surrogate check additionally requires three lookahead bytes
(`idx + 2 < len`) which are consumed only if the check succeeds.  The `bits`
computation reproduces the source's operator precedence: in Rust
`(b3 as u32) & 0x3F << 10` is `b3 & (0x3F << 10)`.  The gas argument
only bounds the number of loop iterations (each iteration consumes at least
one byte, so gas = input length always suffices) and makes the recursion
structural; with gas 0 and input left the loop result is never reached, and
the arbitrary value .ok [] stands there. -/
def decodeLoopAux : Nat → List Nat → Except MUTFError (List Nat)
  | 0, _ => .ok []
  | _ + 1, [] => .ok []
  | _ + 1, 0 :: _ => .error .NullByteInInput
  | gas + 1, b :: rest =>
    if b < 0x80 then
      match decodeLoopAux gas rest with
      | .error e => .error e
      | .ok out => .ok (b :: out)
    else if b &&& 0xE0 = 0xC0 then
      match rest with
      | [] => .error (.CodepointBadInputLength 2)
      | b2 :: rest2 =>
        match decodeLoopAux gas rest2 with
        | .error e => .error e
        | .ok out =>
          if b ≠ 0xC0 ∨ b2 ≠ 0x80 then .ok ([b, b2] ++ out)
          else .ok (0 :: out)
    else if b &&& 0xF0 = 0xE0 then
      match rest with
      | b2 :: b3 :: rest3 =>
        match rest3 with
        | b4 :: b5 :: b6 :: rest6 =>
          if b = 0xED ∧ b2 &&& 0xF0 = 0xA0 ∧ b4 = 0xED ∧ b5 &&& 0xF0 = 0xB0 then
            let bits := ((b2 &&& 0x0F) + 1) <<< 16 + (b3 &&& (0x3F <<< 10))
              + (b5 &&& (0x0F <<< 6)) + (b6 &&& 0x3F)
            match decodeLoopAux gas rest6 with
            | .error e => .error e
            | .ok out =>
              .ok ([0xF0 + ((bits >>> 18) &&& 0x07),
                    0x80 + ((bits >>> 12) &&& 0x3F),
                    0x80 + ((bits >>> 6) &&& 0x3F),
                    0x80 + (bits &&& 0x3F)] ++ out)
          else
            match decodeLoopAux gas (b4 :: b5 :: b6 :: rest6) with
            | .error e => .error e
            | .ok out => .ok ([b, b2, b3] ++ out)
        | _ =>
          match decodeLoopAux gas rest3 with
          | .error e => .error e
          | .ok out => .ok ([b, b2, b3] ++ out)
      | _ => .error (.CodepointBadInputLength 3)
    else .error .InvalidEncoding

/-- The scalar loop of decode, entered with gas = remaining input length. -/
def decodeLoop (bs : List Nat) : Except MUTFError (List Nat) :=
  decodeLoopAux bs.length bs

/-- Modelled from the Rust standard library contract of String::from_utf8,
one code point at a time: strict UTF-8 (shortest form only, no surrogates,
at most U+10FFFF).  Returns the decoded code point and the remaining bytes,
or none on invalid input. -/
def utf8DecOne : List Nat → Option (Nat × List Nat)
  | [] => none
  | b :: bs =>
    if b < 0x80 then some (b, bs)
    else if b < 0xC2 then none
    else if b < 0xE0 then
      match bs with
      | b2 :: bs2 =>
        if 0x80 ≤ b2 ∧ b2 < 0xC0 then
          some ((b - 0xC0) * 64 + (b2 - 0x80), bs2)
        else none
      | [] => none
    else if b < 0xF0 then
      match bs with
      | b2 :: b3 :: bs3 =>
        if (0x80 ≤ b2 ∧ b2 < 0xC0) ∧ (0x80 ≤ b3 ∧ b3 < 0xC0) ∧
            0x800 ≤ (b - 0xE0) * 4096 + (b2 - 0x80) * 64 + (b3 - 0x80) ∧
            ¬(0xD800 ≤ (b - 0xE0) * 4096 + (b2 - 0x80) * 64 + (b3 - 0x80) ∧
              (b - 0xE0) * 4096 + (b2 - 0x80) * 64 + (b3 - 0x80) ≤ 0xDFFF) then
          some ((b - 0xE0) * 4096 + (b2 - 0x80) * 64 + (b3 - 0x80), bs3)
        else none
      | _ => none
    else if b < 0xF5 then
      match bs with
      | b2 :: b3 :: b4 :: bs4 =>
        if (0x80 ≤ b2 ∧ b2 < 0xC0) ∧ (0x80 ≤ b3 ∧ b3 < 0xC0) ∧
            (0x80 ≤ b4 ∧ b4 < 0xC0) ∧
            0x10000 ≤ (b - 0xF0) * 262144 + (b2 - 0x80) * 4096 +
              (b3 - 0x80) * 64 + (b4 - 0x80) ∧
            (b - 0xF0) * 262144 + (b2 - 0x80) * 4096 +
              (b3 - 0x80) * 64 + (b4 - 0x80) ≤ 0x10FFFF then
          some ((b - 0xF0) * 262144 + (b2 - 0x80) * 4096 +
            (b3 - 0x80) * 64 + (b4 - 0x80), bs4)
        else none
      | _ => none
    else none

/-- Strict UTF-8 validation and decoding of a whole byte list (the
String::from_utf8 model); none exactly when from_utf8 would return a
FromUtf8Error.  The gas argument only bounds the iteration count (each
step consumes at least one byte, so gas = input length suffices). -/
def utf8ParseAux : Nat → List Nat → Option (List Nat)
  | 0, _ => some []
  | _ + 1, [] => some []
  | gas + 1, bs =>
    match utf8DecOne bs with
    | none => none
    | some (c, rest) =>
      match utf8ParseAux gas rest with
      | none => none
      | some s => some (c :: s)

/-- Whole-input UTF-8 validation, entered with gas = input length. -/
def utf8Parse (bs : List Nat) : Option (List Nat) :=
  utf8ParseAux bs.length bs

/-- maya-mutf8 decode (lines 58-139): SIMD fast path, scalar loop, then
String::from_utf8 on the accumulated output bytes. -/
def mutf8Decode (input : List Nat) : Except MUTFError (List Nat) :=
  let fs := fastSkip input
  match decodeLoop fs.2 with
  | .error e => .error e
  | .ok out =>
    match utf8Parse (fs.1 ++ out) with
    | some s => .ok s
    | none => .error .FromUTF8Err


/-- Kinds of Rust panics (process aborts) occurring in the tool; payload of
Err.panicked.  Each constructor names one panic site family:
subtractOverflow is a debug-mode integer-underflow abort (in release mode
the corresponding sites abort on capacity overflow or wrap), the others are
explicit panic!/unimplemented!/todo!/unreachable!/expect/indexing panics. -/
inductive PanicKind
  | unimplementedTag
  | unparsedAttribute
  | subtractOverflow
  | indexOutOfBounds
  | expectedTag
  | wrongRefKind
  | expectedNameAndType
  | invalidMethodRefKind
  | invalidFrameTag
  | invalidVtiTag
  | invalidAnnotationTag
  | todoAnnotValue
  | invalidIndex
  | expectedUtf8
  | expectedClass
  | constValueBadTag
deriving DecidableEq

/-- Unified error type of the reader/lifter stack: BytesError::NotEnoughData,
IOClassfileError::InvalidMagic, IRClassfileError::Mutf8, plus the panic
outcomes and the fuel marker for the unbounded lifter recursion. -/
inductive Err
  | notEnoughData
  | invalidMagic
  | mutf8 (e : MUTFError)
  | panicked (k : PanicKind)
  | outOfFuel
deriving DecidableEq

/-- BytesReadExt::read_u8 over a byte list: length check, then one byte. -/
def readU8 : List Nat → Except Err (Nat × List Nat)
  | [] => .error .notEnoughData
  | b :: r => .ok (b, r)

/-- BytesReadExt::read_u16: length check, then two big-endian bytes. -/
def readU16 : List Nat → Except Err (Nat × List Nat)
  | b0 :: b1 :: r => .ok (b0 * 256 + b1, r)
  | _ => .error .notEnoughData

/-- BytesReadExt::read_u32: length check, then four big-endian bytes. -/
def readU32 : List Nat → Except Err (Nat × List Nat)
  | b0 :: b1 :: b2 :: b3 :: r =>
    .ok (((b0 * 256 + b1) * 256 + b2) * 256 + b3, r)
  | _ => .error .notEnoughData

/-- read_n_bytes / read_n_bytes_vec / a loop of n read_u8 calls: n bytes or
NotEnoughData. -/
def readN (n : Nat) (bs : List Nat) : Except Err (List Nat × List Nat) :=
  if n ≤ bs.length then .ok (bs.take n, bs.drop n) else .error .notEnoughData

/-- u16::to_be_bytes (write_u16). -/
def writeU16 (v : Nat) : List Nat :=
  [v / 256 % 256, v % 256]

/-- u32::to_be_bytes (write_u32). -/
def writeU32 (v : Nat) : List Nat :=
  [v / 16777216 % 256, v / 65536 % 256, v / 256 % 256, v % 256]

/-- maya-classfile-io::class_pool::IOCpTag.  Integer/Float/Long/Double keep
their raw big-endian byte arrays exactly as the source struct fields do. -/
inductive IOCpTag
  | Utf8 (length : Nat) (bytes : List Nat)
  | Integer (bytes : List Nat)
  | Float (bytes : List Nat)
  | Long (bytes : List Nat)
  | Double (bytes : List Nat)
  | Class (name_index : Nat)
  | String (utf8_index : Nat)
  | FieldRef (class_index name_and_ty_index : Nat)
  | MethodRef (class_index name_and_ty_index : Nat)
  | InterfaceMethodRef (class_index name_and_ty_index : Nat)
  | NameAndType (name_index descriptor_index : Nat)
  | MethodHandle (reference_kind reference_index : Nat)
  | MethodType (descriptor_index : Nat)
  | InvokeDynamic (bootstrap_method_attr_index name_and_ty_index : Nat)
  | Module (name_index : Nat)
  | Package (name_index : Nat)
deriving DecidableEq

/-- IOCpTag::read (class_pool.rs lines 79-148).  The catch-all arm of the
source is `unimplemented!("unimplemented tag: {tag}")`, a panic. -/
def ioCpTagRead (bs : List Nat) : Except Err (IOCpTag × List Nat) :=
  match readU8 bs with
  | .error e => .error e
  | .ok (tag, bs) =>
    if tag = 1 then
      match readU16 bs with
      | .error e => .error e
      | .ok (len, bs) =>
        match readN len bs with
        | .error e => .error e
        | .ok (bytes, bs) => .ok (.Utf8 len bytes, bs)
    else if tag = 3 then
      match readN 4 bs with
      | .error e => .error e
      | .ok (bytes, bs) => .ok (.Integer bytes, bs)
    else if tag = 4 then
      match readN 4 bs with
      | .error e => .error e
      | .ok (bytes, bs) => .ok (.Float bytes, bs)
    else if tag = 5 then
      match readN 8 bs with
      | .error e => .error e
      | .ok (bytes, bs) => .ok (.Long bytes, bs)
    else if tag = 6 then
      match readN 8 bs with
      | .error e => .error e
      | .ok (bytes, bs) => .ok (.Double bytes, bs)
    else if tag = 7 then
      match readU16 bs with
      | .error e => .error e
      | .ok (v, bs) => .ok (.Class v, bs)
    else if tag = 8 then
      match readU16 bs with
      | .error e => .error e
      | .ok (v, bs) => .ok (.String v, bs)
    else if tag = 9 then
      match readU16 bs with
      | .error e => .error e
      | .ok (c, bs) =>
        match readU16 bs with
        | .error e => .error e
        | .ok (n, bs) => .ok (.FieldRef c n, bs)
    else if tag = 10 then
      match readU16 bs with
      | .error e => .error e
      | .ok (c, bs) =>
        match readU16 bs with
        | .error e => .error e
        | .ok (n, bs) => .ok (.MethodRef c n, bs)
    else if tag = 11 then
      match readU16 bs with
      | .error e => .error e
      | .ok (c, bs) =>
        match readU16 bs with
        | .error e => .error e
        | .ok (n, bs) => .ok (.InterfaceMethodRef c n, bs)
    else if tag = 12 then
      match readU16 bs with
      | .error e => .error e
      | .ok (n, bs) =>
        match readU16 bs with
        | .error e => .error e
        | .ok (d, bs) => .ok (.NameAndType n d, bs)
    else if tag = 15 then
      match readU8 bs with
      | .error e => .error e
      | .ok (k, bs) =>
        match readU16 bs with
        | .error e => .error e
        | .ok (i, bs) => .ok (.MethodHandle k i, bs)
    else if tag = 16 then
      match readU16 bs with
      | .error e => .error e
      | .ok (d, bs) => .ok (.MethodType d, bs)
    else if tag = 18 then
      match readU16 bs with
      | .error e => .error e
      | .ok (b, bs) =>
        match readU16 bs with
        | .error e => .error e
        | .ok (n, bs) => .ok (.InvokeDynamic b n, bs)
    else if tag = 19 then
      match readU16 bs with
      | .error e => .error e
      | .ok (v, bs) => .ok (.Module v, bs)
    else if tag = 20 then
      match readU16 bs with
      | .error e => .error e
      | .ok (v, bs) => .ok (.Package v, bs)
    else .error (.panicked .unimplementedTag)

/-- IOCpTag::id (class_pool.rs lines 150-195).  Transcribed faithfully: the
source's Package arm (line 193) returns 19, the same value as Module, even
though the enum declares Package with discriminant 20 and read maps tag
byte 20 to Package. -/
def ioCpTagId : IOCpTag → Nat
  | .Utf8 _ _ => 1
  | .Integer _ => 3
  | .Float _ => 4
  | .Long _ => 5
  | .Double _ => 6
  | .Class _ => 7
  | .String _ => 8
  | .FieldRef _ _ => 9
  | .MethodRef _ _ => 10
  | .InterfaceMethodRef _ _ => 11
  | .NameAndType _ _ => 12
  | .MethodHandle _ _ => 15
  | .MethodType _ => 16
  | .InvokeDynamic _ _ => 18
  | .Module _ => 19
  | .Package _ => 19

/-- IOCpTag::write (class_pool.rs lines 197-279): tag byte from id(), then
the payload fields in order. -/
def ioCpTagWrite (t : IOCpTag) : List Nat :=
  ioCpTagId t ::
    match t with
    | .Utf8 length bytes => writeU16 length ++ bytes
    | .Integer bytes => bytes
    | .Float bytes => bytes
    | .Long bytes => bytes
    | .Double bytes => bytes
    | .Class n => writeU16 n
    | .String n => writeU16 n
    | .FieldRef c n => writeU16 c ++ writeU16 n
    | .MethodRef c n => writeU16 c ++ writeU16 n
    | .InterfaceMethodRef c n => writeU16 c ++ writeU16 n
    | .NameAndType n d => writeU16 n ++ writeU16 d
    | .MethodHandle k i => [k % 256] ++ writeU16 i
    | .MethodType d => writeU16 d
    | .InvokeDynamic b n => writeU16 b ++ writeU16 n
    | .Module n => writeU16 n
    | .Package n => writeU16 n

/-- maya-classfile-io::IOAttributeInfo. -/
structure IOAttributeInfo where
  attribute_name_index : Nat
  attribute_length : Nat
  info : List Nat
deriving DecidableEq

/-- IOAttributeInfo::read: name index (u16), length (u32), then length
bytes of opaque payload. -/
def ioAttributeInfoRead (bs : List Nat) :
    Except Err (IOAttributeInfo × List Nat) :=
  match readU16 bs with
  | .error e => .error e
  | .ok (nameIdx, bs) =>
    match readU32 bs with
    | .error e => .error e
    | .ok (len, bs) =>
      match readN len bs with
      | .error e => .error e
      | .ok (info, bs) => .ok (⟨nameIdx, len, info⟩, bs)

/-- IOAttributeInfo::write. -/
def ioAttributeInfoWrite (a : IOAttributeInfo) : List Nat :=
  writeU16 a.attribute_name_index ++ writeU32 a.attribute_length ++ a.info

/-- Loop reading n IOAttributeInfo records. -/
def readAttrs : Nat → List Nat → Except Err (List IOAttributeInfo × List Nat)
  | 0, bs => .ok ([], bs)
  | n + 1, bs =>
    match ioAttributeInfoRead bs with
    | .error e => .error e
    | .ok (a, bs) =>
      match readAttrs n bs with
      | .error e => .error e
      | .ok (as_, bs) => .ok (a :: as_, bs)

/-- maya-classfile-io::IOFieldInfo (IOMethodInfo has the identical shape and
read/write code; both are modelled by this one structure). -/
structure IOFieldInfo where
  access_flags : Nat
  name_index : Nat
  descriptor_index : Nat
  attributes_count : Nat
  attributes : List IOAttributeInfo
deriving DecidableEq

/-- IOFieldInfo::read / IOMethodInfo::read. -/
def ioFieldInfoRead (bs : List Nat) : Except Err (IOFieldInfo × List Nat) :=
  match readU16 bs with
  | .error e => .error e
  | .ok (af, bs) =>
    match readU16 bs with
    | .error e => .error e
    | .ok (ni, bs) =>
      match readU16 bs with
      | .error e => .error e
      | .ok (di, bs) =>
        match readU16 bs with
        | .error e => .error e
        | .ok (ac, bs) =>
          match readAttrs ac bs with
          | .error e => .error e
          | .ok (attrs, bs) => .ok (⟨af, ni, di, ac, attrs⟩, bs)

/-- IOFieldInfo::write / IOMethodInfo::write. -/
def ioFieldInfoWrite (f : IOFieldInfo) : List Nat :=
  writeU16 f.access_flags ++ writeU16 f.name_index ++
    writeU16 f.descriptor_index ++ writeU16 f.attributes_count ++
    f.attributes.flatMap ioAttributeInfoWrite

/-- Loop reading n constant-pool entries. -/
def readCpEntries : Nat → List Nat → Except Err (List IOCpTag × List Nat)
  | 0, bs => .ok ([], bs)
  | n + 1, bs =>
    match ioCpTagRead bs with
    | .error e => .error e
    | .ok (t, bs) =>
      match readCpEntries n bs with
      | .error e => .error e
      | .ok (ts, bs) => .ok (t :: ts, bs)

/-- Loop reading n u16 interface indices. -/
def readU16s : Nat → List Nat → Except Err (List Nat × List Nat)
  | 0, bs => .ok ([], bs)
  | n + 1, bs =>
    match readU16 bs with
    | .error e => .error e
    | .ok (v, bs) =>
      match readU16s n bs with
      | .error e => .error e
      | .ok (vs, bs) => .ok (v :: vs, bs)

/-- Loop reading n IOFieldInfo (or IOMethodInfo) records. -/
def readFieldInfos : Nat → List Nat → Except Err (List IOFieldInfo × List Nat)
  | 0, bs => .ok ([], bs)
  | n + 1, bs =>
    match ioFieldInfoRead bs with
    | .error e => .error e
    | .ok (f, bs) =>
      match readFieldInfos n bs with
      | .error e => .error e
      | .ok (fs, bs) => .ok (f :: fs, bs)

/-- maya-classfile-io::IOClassFile. -/
structure IOClassFile where
  magic : Nat
  minor_version : Nat
  major_version : Nat
  cp_count : Nat
  cp : List IOCpTag
  access_flags : Nat
  this_class : Nat
  super_class : Nat
  interface_count : Nat
  interfaces : List Nat
  field_count : Nat
  fields : List IOFieldInfo
  method_count : Nat
  methods : List IOFieldInfo
  attribute_count : Nat
  attributes : List IOAttributeInfo
deriving DecidableEq

/-- The `cp_count as usize - 1` / `0..cp_count - 1` computation of
IOClassFile::read (lib.rs lines 49-50): with cp_count = 0 the subtraction
underflows, which aborts the process (debug: subtract-with-overflow panic;
release: a usize-wrapped Vec::with_capacity request that aborts on
capacity overflow) instead of producing an error value.  For
cp_count >= 1 the subtraction is exact. -/
def cpEntryCount (cpCount : Nat) : Except Err Nat :=
  if cpCount = 0 then .error (.panicked .subtractOverflow)
  else .ok (cpCount - 1)

/-- IOClassFile::read (lib.rs lines 38-95).  cp_count - 1 entries are read
regardless of Long/Double entries among them: the loop does not skip a
slot for an 8-byte constant. -/
def ioClassFileRead (bs : List Nat) : Except Err (IOClassFile × List Nat) :=
  match readU32 bs with
  | .error e => .error e
  | .ok (magic, bs) =>
    if magic ≠ 0xCAFEBABE then .error .invalidMagic
    else
      match readU16 bs with
      | .error e => .error e
      | .ok (minor, bs) =>
        match readU16 bs with
        | .error e => .error e
        | .ok (major, bs) =>
          match readU16 bs with
          | .error e => .error e
          | .ok (cpCount, bs) =>
            match cpEntryCount cpCount with
            | .error e => .error e
            | .ok nEntries =>
              match readCpEntries nEntries bs with
              | .error e => .error e
              | .ok (cp, bs) =>
                match readU16 bs with
                | .error e => .error e
                | .ok (af, bs) =>
                  match readU16 bs with
                  | .error e => .error e
                  | .ok (thisC, bs) =>
                    match readU16 bs with
                    | .error e => .error e
                    | .ok (superC, bs) =>
                      match readU16 bs with
                      | .error e => .error e
                      | .ok (ifc, bs) =>
                        match readU16s ifc bs with
                        | .error e => .error e
                        | .ok (ifs, bs) =>
                          match readU16 bs with
                          | .error e => .error e
                          | .ok (fc, bs) =>
                            match readFieldInfos fc bs with
                            | .error e => .error e
                            | .ok (fs, bs) =>
                              match readU16 bs with
                              | .error e => .error e
                              | .ok (mc, bs) =>
                                match readFieldInfos mc bs with
                                | .error e => .error e
                                | .ok (ms, bs) =>
                                  match readU16 bs with
                                  | .error e => .error e
                                  | .ok (ac, bs) =>
                                    match readAttrs ac bs with
                                    | .error e => .error e
                                    | .ok (ats, bs) =>
                                      .ok (⟨magic, minor, major, cpCount, cp,
                                        af, thisC, superC, ifc, ifs, fc, fs,
                                        mc, ms, ac, ats⟩, bs)

/-- IOClassFile::write (lib.rs lines 97-128): the writer echoes every stored
count field as-is and concatenates the stored records. -/
def ioClassFileWrite (c : IOClassFile) : List Nat :=
  writeU32 c.magic ++ writeU16 c.minor_version ++ writeU16 c.major_version ++
    writeU16 c.cp_count ++ c.cp.flatMap ioCpTagWrite ++
    writeU16 c.access_flags ++ writeU16 c.this_class ++
    writeU16 c.super_class ++ writeU16 c.interface_count ++
    c.interfaces.flatMap writeU16 ++ writeU16 c.field_count ++
    c.fields.flatMap ioFieldInfoWrite ++ writeU16 c.method_count ++
    c.methods.flatMap ioFieldInfoWrite ++ writeU16 c.attribute_count ++
    c.attributes.flatMap ioAttributeInfoWrite

/-- maya-classfile-ir::class_pool::CPUtf8Ref: a resolved utf8 reference,
pairing the pool index with the decoded string. -/
structure CPUtf8Ref where
  data : List Nat
  index : Nat
deriving DecidableEq

/-- CPClassRef. -/
structure CPClassRef where
  data : CPUtf8Ref
  index : Nat
deriving DecidableEq

/-- CPNameAndTypeRef. -/
structure CPNameAndTypeRef where
  index : Nat
  name : CPUtf8Ref
  ty : CPUtf8Ref
deriving DecidableEq

/-- IRMethodRefKind (class_pool.rs lines 21-31). -/
inductive IRMethodRefKind
  | GetField
  | GetStatic
  | PutField
  | PutStatic
  | InvokeVirtual
  | InvokeStatic
  | InvokeSpecial
  | NewInvokeSpecial
  | InvokeInterface
deriving DecidableEq

/-- IRMethodRefKind::from (lines 34-47); the catch-all arm is a panic!. -/
def irMethodRefKindFrom (v : Nat) : Except Err IRMethodRefKind :=
  if v = 1 then .ok .GetField
  else if v = 2 then .ok .GetStatic
  else if v = 3 then .ok .PutField
  else if v = 4 then .ok .PutStatic
  else if v = 5 then .ok .InvokeVirtual
  else if v = 6 then .ok .InvokeStatic
  else if v = 7 then .ok .InvokeSpecial
  else if v = 8 then .ok .NewInvokeSpecial
  else if v = 9 then .ok .InvokeInterface
  else .error (.panicked .invalidMethodRefKind)

/-- maya-classfile-ir::class_pool::IRCpTag (lines 364-409).  The numeric
constant-pool scalars store the big-endian value of the raw byte array
(i32/f32/i64/f64::from_be_bytes is injective on bit patterns, so the Nat
value of the bytes is a faithful representation of the stored scalar). -/
inductive IRCpTag
  | Utf8 (data : List Nat)
  | Integer (bits : Nat)
  | Float (bits : Nat)
  | Long (bits : Nat)
  | Double (bits : Nat)
  | Class (data : CPUtf8Ref)
  | String (data : CPUtf8Ref)
  | FieldRef (class_index : Nat) (name_and_ty : CPNameAndTypeRef)
  | MethodRef (class_index : Nat) (name_and_ty : CPNameAndTypeRef)
  | InterfaceMethodRef (class_index : Nat) (name_and_ty : CPNameAndTypeRef)
  | NameAndType (name : CPUtf8Ref) (descriptor : CPUtf8Ref)
  | MethodHandle (ref_kind : IRMethodRefKind) (ref_index : Nat)
      (ref_tag : IRCpTag)
  | MethodType (descriptor : CPUtf8Ref)
  | InvokeDynamic (bootstrap_method_attr_index : Nat)
      (name_and_ty : CPNameAndTypeRef)
  | Module (name : CPUtf8Ref)
  | Package (name : CPUtf8Ref)
deriving DecidableEq

/-- Big-endian value of a byte array (iN::from_be_bytes, as a bit pattern). -/
def beVal (bytes : List Nat) : Nat :=
  bytes.foldl (fun a b => a * 256 + b) 0

/-- CPUtf8Ref::new (class_pool.rs lines 105-113): panics unless the referent
tag is Utf8. -/
def cpUtf8RefNew (index : Nat) (tag : IRCpTag) : Except Err CPUtf8Ref :=
  match tag with
  | .Utf8 data => .ok ⟨data, index⟩
  | _ => .error (.panicked .wrongRefKind)

/-- CPClassRef::new (lines 128-136): panics unless the referent is Class. -/
def cpClassRefNew (index : Nat) (tag : IRCpTag) : Except Err CPClassRef :=
  match tag with
  | .Class this => .ok ⟨this, index⟩
  | _ => .error (.panicked .wrongRefKind)

/-- IRCpTag::parse_tag (class_pool.rs lines 422-554) with an explicit fuel
bound on the recursion depth: fuel 0 yields the marker Err.outOfFuel, and
each nested resolution of a referenced index re-enters parse_tag with one
unit less.  The source has no such bound (and no visited set); the fuel
parameter makes the unbounded recursion a total function, with
non-termination of the source exactly when every fuel runs out.
The inner parseTagIdx is the parse_tag_idx! macro (lines 411-419), restated
as the standalone parseTagIdxF below. -/
def parseTagF : Nat → IOCpTag → List IOCpTag → List IRCpTag →
    Except Err IRCpTag
  | 0, _, _, _ => .error .outOfFuel
  | fuel + 1, tag, raw_tags, formed_tags =>
    let parseTagIdx : Nat → Except Err IRCpTag := fun idx =>
      if idx = 0 then .error (.panicked .subtractOverflow)
      else
        match raw_tags[idx - 1]? with
        | none => .error (.panicked .indexOutOfBounds)
        | some rawTag =>
          match parseTagF fuel rawTag raw_tags formed_tags with
          | .error e => .error e
          | .ok parsed =>
            match formed_tags[idx - 1]? with
            | some t => .ok t
            | none => .ok parsed
    match tag with
    | .Utf8 _ bytes =>
      match mutf8Decode bytes with
      | .error e => .error (.mutf8 e)
      | .ok s => .ok (.Utf8 s)
    | .Integer bytes => .ok (.Integer (beVal bytes))
    | .Float bytes => .ok (.Float (beVal bytes))
    | .Long bytes => .ok (.Long (beVal bytes))
    | .Double bytes => .ok (.Double (beVal bytes))
    | .Class name_index =>
      match parseTagIdx name_index with
      | .error e => .error e
      | .ok utf8_tag =>
        match cpUtf8RefNew name_index utf8_tag with
        | .error e => .error e
        | .ok r => .ok (.Class r)
    | .String utf8_index =>
      match parseTagIdx utf8_index with
      | .error e => .error e
      | .ok utf8_tag =>
        match cpUtf8RefNew utf8_index utf8_tag with
        | .error e => .error e
        | .ok r => .ok (.String r)
    | .FieldRef class_index name_and_ty_index =>
      match parseTagIdx name_and_ty_index with
      | .error e => .error e
      | .ok t =>
        match t with
        | .NameAndType name descriptor =>
          .ok (.FieldRef class_index ⟨name_and_ty_index, name, descriptor⟩)
        | _ => .error (.panicked .expectedNameAndType)
    | .MethodRef class_index name_and_ty_index =>
      match parseTagIdx name_and_ty_index with
      | .error e => .error e
      | .ok t =>
        match t with
        | .NameAndType name descriptor =>
          .ok (.MethodRef class_index ⟨name_and_ty_index, name, descriptor⟩)
        | _ => .error (.panicked .expectedNameAndType)
    | .InterfaceMethodRef class_index name_and_ty_index =>
      match parseTagIdx name_and_ty_index with
      | .error e => .error e
      | .ok t =>
        match t with
        | .NameAndType name descriptor =>
          .ok (.InterfaceMethodRef class_index
            ⟨name_and_ty_index, name, descriptor⟩)
        | _ => .error (.panicked .expectedNameAndType)
    | .NameAndType name_index descriptor_index =>
      match parseTagIdx name_index with
      | .error e => .error e
      | .ok name_tag =>
        match parseTagIdx descriptor_index with
        | .error e => .error e
        | .ok descriptor_tag =>
          match cpUtf8RefNew name_index name_tag with
          | .error e => .error e
          | .ok n =>
            match cpUtf8RefNew descriptor_index descriptor_tag with
            | .error e => .error e
            | .ok d => .ok (.NameAndType n d)
    | .MethodHandle reference_kind_idx reference_index =>
      match irMethodRefKindFrom reference_kind_idx with
      | .error e => .error e
      | .ok kind =>
        match parseTagIdx reference_index with
        | .error e => .error e
        | .ok t => .ok (.MethodHandle kind reference_index t)
    | .MethodType descriptor_index =>
      match parseTagIdx descriptor_index with
      | .error e => .error e
      | .ok t =>
        match cpUtf8RefNew descriptor_index t with
        | .error e => .error e
        | .ok r => .ok (.MethodType r)
    | .InvokeDynamic bootstrap_method_attr_index name_and_ty_index =>
      match parseTagIdx name_and_ty_index with
      | .error e => .error e
      | .ok t =>
        match t with
        | .NameAndType name descriptor =>
          .ok (.InvokeDynamic bootstrap_method_attr_index
            ⟨name_and_ty_index, name, descriptor⟩)
        | _ => .error (.panicked .expectedNameAndType)
    | .Module name_index =>
      match parseTagIdx name_index with
      | .error e => .error e
      | .ok name_tag =>
        match cpUtf8RefNew name_index name_tag with
        | .error e => .error e
        | .ok r => .ok (.Module r)
    | .Package name_index =>
      match parseTagIdx name_index with
      | .error e => .error e
      | .ok name_tag =>
        match cpUtf8RefNew name_index name_tag with
        | .error e => .error e
        | .ok r => .ok (.Package r)

/-- The parse_tag_idx! macro (class_pool.rs lines 411-419):
`formed_tags.get(idx - 1).cloned().or(Some(parse_tag(&raw_tags[idx - 1],
raw_tags, formed_tags)?))`.  With idx = 0 the `idx as usize - 1` underflows
(process abort); `raw_tags[idx - 1]` is a panicking index; and since
Option::or takes its argument eagerly, parse_tag runs (and can fail) even
when the entry is already in formed_tags, whose hit still wins the
result. -/
def parseTagIdxF (fuel idx : Nat) (raw_tags : List IOCpTag)
    (formed_tags : List IRCpTag) : Except Err IRCpTag :=
  if idx = 0 then .error (.panicked .subtractOverflow)
  else
    match raw_tags[idx - 1]? with
    | none => .error (.panicked .indexOutOfBounds)
    | some rawTag =>
      match parseTagF fuel rawTag raw_tags formed_tags with
      | .error e => .error e
      | .ok parsed =>
        match formed_tags[idx - 1]? with
        | some t => .ok t
        | none => .ok parsed

/-- The loop body of IRCpTag::from_io (lines 556-565): parse each raw tag
in order against the whole raw pool and the already-formed prefix. -/
def cpFromIoGo (fuel : Nat) (raw : List IOCpTag) :
    List IOCpTag → List IRCpTag → Except Err (List IRCpTag)
  | [], formed => .ok formed
  | t :: pending, formed =>
    match parseTagF fuel t raw formed with
    | .error e => .error e
    | .ok tag => cpFromIoGo fuel raw pending (formed ++ [tag])

/-- IRCpTag::from_io with the fuel bound threaded through parse_tag. -/
def cpFromIoF (fuel : Nat) (raw : List IOCpTag) : Except Err (List IRCpTag) :=
  cpFromIoGo fuel raw raw []

/-- The pool indices an IOCpTag hands to parse_tag_idx! during its lift:
the reference edges of the constant-pool graph followed by the recursion. -/
def ioCpTagRefIdxs : IOCpTag → List Nat
  | .Utf8 _ _ => []
  | .Integer _ => []
  | .Float _ => []
  | .Long _ => []
  | .Double _ => []
  | .Class n => [n]
  | .String n => [n]
  | .FieldRef _ n => [n]
  | .MethodRef _ n => [n]
  | .InterfaceMethodRef _ n => [n]
  | .NameAndType n d => [n, d]
  | .MethodHandle _ i => [i]
  | .MethodType d => [d]
  | .InvokeDynamic _ n => [n]
  | .Module n => [n]
  | .Package n => [n]

/-- Edge relation of the reference graph on physical (0-based) pool
positions: entry p resolves an index idx whose target position q = idx - 1
exists in the pool.  These are exactly the positions parse_tag recurses
into. -/
def RefEdge (raw : List IOCpTag) (p q : Nat) : Prop :=
  ∃ t idx, raw[p]? = some t ∧ idx ∈ ioCpTagRefIdxs t ∧ 1 ≤ idx ∧
    q = idx - 1 ∧ q < raw.length

/-- The lifter, run with some finite recursion budget, completes (with any
result other than the exhausted-budget marker).  Because each recursion
step of the source consumes one unit of fuel in the model, the source's
recursion terminates on a pool exactly when this holds. -/
def LiftCompletes (raw : List IOCpTag) : Prop :=
  ∃ fuel, cpFromIoF fuel raw ≠ .error .outOfFuel

/-- Code points of a Lean string literal; used to model the Rust &str
attribute names that IRAttribute::new dispatches on. -/
def strCodes (s : String) : List Nat :=
  s.data.map (fun c => c.toNat)

/-- maya-classfile-ir::attribute::VerificationTypeInfo (lines 24-34). -/
inductive VerificationTypeInfo
  | TopVariableInfo
  | IntegerVariableInfo
  | FloatVariableInfo
  | LongVariableInfo
  | DoubleVariableInfo
  | NullVariableInfo
  | UninitializedThisVariableInfo
  | ObjectVariableInfo (cpool_idx : Nat)
  | UninitializedVariableInfo (offset : Nat)
deriving DecidableEq

/-- VerificationTypeInfo::read (lines 37-55): note tags 4 and 3 map to Long
and Double respectively; the catch-all arm is unreachable!, a panic. -/
def vtiRead (bs : List Nat) :
    Except Err (VerificationTypeInfo × List Nat) :=
  match readU8 bs with
  | .error e => .error e
  | .ok (tag, bs) =>
    if tag = 0 then .ok (.TopVariableInfo, bs)
    else if tag = 1 then .ok (.IntegerVariableInfo, bs)
    else if tag = 2 then .ok (.FloatVariableInfo, bs)
    else if tag = 4 then .ok (.LongVariableInfo, bs)
    else if tag = 3 then .ok (.DoubleVariableInfo, bs)
    else if tag = 5 then .ok (.NullVariableInfo, bs)
    else if tag = 6 then .ok (.UninitializedThisVariableInfo, bs)
    else if tag = 7 then
      match readU16 bs with
      | .error e => .error e
      | .ok (v, bs) => .ok (.ObjectVariableInfo v, bs)
    else if tag = 8 then
      match readU16 bs with
      | .error e => .error e
      | .ok (v, bs) => .ok (.UninitializedVariableInfo v, bs)
    else .error (.panicked .invalidVtiTag)

/-- Loop reading n verification_type_info records. -/
def readVtis : Nat → List Nat →
    Except Err (List VerificationTypeInfo × List Nat)
  | 0, bs => .ok ([], bs)
  | n + 1, bs =>
    match vtiRead bs with
    | .error e => .error e
    | .ok (v, bs) =>
      match readVtis n bs with
      | .error e => .error e
      | .ok (vs, bs) => .ok (v :: vs, bs)

/-- maya-classfile-ir::attribute::StackMapFrame (lines 59-103). -/
inductive StackMapFrame
  | SameFrame (frame_type offset_delta : Nat)
  | SameLocals1StackItemFrame (frame_type offset_delta : Nat)
      (stack : VerificationTypeInfo)
  | SameLocals1StackItemFrameExtended (frame_type offset_delta : Nat)
      (stack : VerificationTypeInfo)
  | ChopFrame (frame_type offset_delta : Nat)
  | SameFrameExtended (frame_type offset_delta : Nat)
  | AppendFrame (frame_type offset_delta : Nat)
      (locals : List VerificationTypeInfo)
  | FullFrame (frame_type offset_delta : Nat)
      (locals : List VerificationTypeInfo)
      (stack : List VerificationTypeInfo)
deriving DecidableEq

/-- StackMapFrame::new (lines 106-171).  In the 64..=127 arm the source
computes `(64 - frame_type) as u16` where the subtraction happens on u8:
for frame_type > 64 it underflows, which in release mode wraps modulo 256
(modelled here as (64 + 256 - t) % 256) and in debug mode aborts the
process with a subtract-with-overflow panic.  The JVM spec (and the frames'
own semantics) call for frame_type - 64.  The catch-all arm is a panic!. -/
def stackMapFrameNew (bs : List Nat) :
    Except Err (StackMapFrame × List Nat) :=
  match readU8 bs with
  | .error e => .error e
  | .ok (frameType, bs) =>
    if frameType ≤ 63 then .ok (.SameFrame frameType frameType, bs)
    else if frameType ≤ 127 then
      match vtiRead bs with
      | .error e => .error e
      | .ok (stack, bs) =>
        .ok (.SameLocals1StackItemFrame frameType
          ((64 + 256 - frameType) % 256) stack, bs)
    else if frameType = 247 then
      match readU16 bs with
      | .error e => .error e
      | .ok (offset, bs) =>
        match vtiRead bs with
        | .error e => .error e
        | .ok (stack, bs) =>
          .ok (.SameLocals1StackItemFrameExtended frameType offset stack, bs)
    else if 248 ≤ frameType ∧ frameType ≤ 250 then
      match readU16 bs with
      | .error e => .error e
      | .ok (offset, bs) => .ok (.ChopFrame frameType offset, bs)
    else if frameType = 251 then
      match readU16 bs with
      | .error e => .error e
      | .ok (offset, bs) => .ok (.SameFrameExtended frameType offset, bs)
    else if 252 ≤ frameType ∧ frameType ≤ 254 then
      match readU16 bs with
      | .error e => .error e
      | .ok (offset, bs) =>
        match readVtis (frameType - 251) bs with
        | .error e => .error e
        | .ok (locals, bs) => .ok (.AppendFrame frameType offset locals, bs)
    else if frameType = 255 then
      match readU16 bs with
      | .error e => .error e
      | .ok (offset, bs) =>
        match readU16 bs with
        | .error e => .error e
        | .ok (nLocals, bs) =>
          match readVtis nLocals bs with
          | .error e => .error e
          | .ok (locals, bs) =>
            match readU16 bs with
            | .error e => .error e
            | .ok (nStack, bs) =>
              match readVtis nStack bs with
              | .error e => .error e
              | .ok (stack, bs) =>
                .ok (.FullFrame frameType offset locals stack, bs)
    else .error (.panicked .invalidFrameTag)

/-- Loop reading n stack-map frames. -/
def readFrames : Nat → List Nat → Except Err (List StackMapFrame × List Nat)
  | 0, bs => .ok ([], bs)
  | n + 1, bs =>
    match stackMapFrameNew bs with
    | .error e => .error e
    | .ok (f, bs) =>
      match readFrames n bs with
      | .error e => .error e
      | .ok (fs, bs) => .ok (f :: fs, bs)

/-- ConstantValueAttribute (attribute.rs lines 9-15); numeric payloads keep
their bit patterns as Nat. -/
inductive ConstantValueAttribute
  | Long (cp_idx value : Nat)
  | Float (cp_idx value : Nat)
  | Double (cp_idx value : Nat)
  | Int (cp_idx value : Nat)
  | String (r : CPUtf8Ref)
deriving DecidableEq

/-- InnerClassesAttributeClass (lines 175-180). -/
structure InnerClassesAttributeClass where
  inner_class_info : CPClassRef
  outer_class_info : Option CPClassRef
  inner_name : Option CPUtf8Ref
  inner_class_access_flags : Nat
deriving DecidableEq

/-- CodeAttributeException (lines 216-221). -/
structure CodeAttributeException where
  start_pc : Nat
  end_pc : Nat
  handler_pc : Nat
  catch_type : Nat
deriving DecidableEq

/-- CodeAttributeException::new (lines 224-232). -/
def codeAttributeExceptionNew (bs : List Nat) :
    Except Err (CodeAttributeException × List Nat) :=
  match readU16 bs with
  | .error e => .error e
  | .ok (s, bs) =>
    match readU16 bs with
    | .error e => .error e
    | .ok (en, bs) =>
      match readU16 bs with
      | .error e => .error e
      | .ok (h, bs) =>
        match readU16 bs with
        | .error e => .error e
        | .ok (c, bs) => .ok (⟨s, en, h, c⟩, bs)

/-- Loop reading n exception-table entries of a Code attribute. -/
def readCodeExceptions : Nat → List Nat →
    Except Err (List CodeAttributeException × List Nat)
  | 0, bs => .ok ([], bs)
  | n + 1, bs =>
    match codeAttributeExceptionNew bs with
    | .error e => .error e
    | .ok (x, bs) =>
      match readCodeExceptions n bs with
      | .error e => .error e
      | .ok (xs, bs) => .ok (x :: xs, bs)

/-- LineNumberTableAttributeEntry (lines 275-278). -/
structure LineNumberTableAttributeEntry where
  start_pc : Nat
  line_number : Nat
deriving DecidableEq

/-- The entry loop of LineNumberTableAttribute::new (lines 286-298). -/
def readLineNumbers : Nat → List Nat →
    Except Err (List LineNumberTableAttributeEntry × List Nat)
  | 0, bs => .ok ([], bs)
  | n + 1, bs =>
    match readU16 bs with
    | .error e => .error e
    | .ok (s, bs) =>
      match readU16 bs with
      | .error e => .error e
      | .ok (l, bs) =>
        match readLineNumbers n bs with
        | .error e => .error e
        | .ok (es, bs) => .ok (⟨s, l⟩ :: es, bs)

/-- MethodParametersParam (lines 302-305). -/
structure MethodParametersParam where
  name : Option CPUtf8Ref
  access_flags : Nat
deriving DecidableEq

/-- Resolution through `cp.get(idx as usize - 1).expect(..)` followed by
CPUtf8Ref::new: idx 0 underflows (abort), a missing entry is an expect
panic, a non-Utf8 entry panics inside CPUtf8Ref::new. -/
def resolveUtf8 (cp : List IRCpTag) (idx : Nat) : Except Err CPUtf8Ref :=
  if idx = 0 then .error (.panicked .subtractOverflow)
  else
    match cp[idx - 1]? with
    | none => .error (.panicked .expectedUtf8)
    | some t => cpUtf8RefNew idx t

/-- Resolution through `cp.get(idx as usize - 1).expect(..)` followed by
CPClassRef::new. -/
def resolveClass (cp : List IRCpTag) (idx : Nat) : Except Err CPClassRef :=
  if idx = 0 then .error (.panicked .subtractOverflow)
  else
    match cp[idx - 1]? with
    | none => .error (.panicked .expectedClass)
    | some t => cpClassRefNew idx t

/-- MethodParametersParam::new (lines 308-323): name_index 0 means absent;
access_flags is read after the resolution. -/
def methodParametersParamNew (cp : List IRCpTag) (bs : List Nat) :
    Except Err (MethodParametersParam × List Nat) :=
  match readU16 bs with
  | .error e => .error e
  | .ok (nameIndex, bs) =>
    let nm : Except Err (Option CPUtf8Ref) :=
      if nameIndex = 0 then .ok none
      else
        match resolveUtf8 cp nameIndex with
        | .error e => .error e
        | .ok r => .ok (some r)
    match nm with
    | .error e => .error e
    | .ok name =>
      match readU16 bs with
      | .error e => .error e
      | .ok (af, bs) => .ok (⟨name, af⟩, bs)

/-- Loop reading n method-parameter records. -/
def readMethodParams (cp : List IRCpTag) :
    Nat → List Nat → Except Err (List MethodParametersParam × List Nat)
  | 0, bs => .ok ([], bs)
  | n + 1, bs =>
    match methodParametersParamNew cp bs with
    | .error e => .error e
    | .ok (p, bs) =>
      match readMethodParams cp n bs with
      | .error e => .error e
      | .ok (ps, bs) => .ok (p :: ps, bs)

/-- InnerClassesAttributeClass::new (lines 183-207): four u16s, then the
resolutions (index 0 meaning absent for the outer class and inner name). -/
def innerClassesAttributeClassNew (cp : List IRCpTag) (bs : List Nat) :
    Except Err (InnerClassesAttributeClass × List Nat) :=
  match readU16 bs with
  | .error e => .error e
  | .ok (innerIdx, bs) =>
    match readU16 bs with
    | .error e => .error e
    | .ok (outerIdx, bs) =>
      match readU16 bs with
      | .error e => .error e
      | .ok (innerNameIdx, bs) =>
        match readU16 bs with
        | .error e => .error e
        | .ok (flags, bs) =>
          match resolveClass cp innerIdx with
          | .error e => .error e
          | .ok inner =>
            let outer : Except Err (Option CPClassRef) :=
              if outerIdx = 0 then .ok none
              else
                match resolveClass cp outerIdx with
                | .error e => .error e
                | .ok r => .ok (some r)
            match outer with
            | .error e => .error e
            | .ok outerR =>
              let innerName : Except Err (Option CPUtf8Ref) :=
                if innerNameIdx = 0 then .ok none
                else
                  match resolveUtf8 cp innerNameIdx with
                  | .error e => .error e
                  | .ok r => .ok (some r)
              match innerName with
              | .error e => .error e
              | .ok innerNameR =>
                .ok (⟨inner, outerR, innerNameR, flags⟩, bs)

/-- Loop reading n inner-class records. -/
def readInnerClasses (cp : List IRCpTag) :
    Nat → List Nat → Except Err (List InnerClassesAttributeClass × List Nat)
  | 0, bs => .ok ([], bs)
  | n + 1, bs =>
    match innerClassesAttributeClassNew cp bs with
    | .error e => .error e
    | .ok (c, bs) =>
      match readInnerClasses cp n bs with
      | .error e => .error e
      | .ok (cs, bs) => .ok (c :: cs, bs)

/-- The entry loop of the Exceptions attribute (attribute.rs lines 514-524):
each u16 index idx is resolved through `cp.get(idx as usize)` - with no
`- 1`, unlike every other resolution site - and the entry found there must
be Utf8 (CPUtf8Ref::new panics otherwise; a missing entry is an expect
panic). -/
def readExceptionRefs (cp : List IRCpTag) :
    Nat → List Nat → Except Err (List CPUtf8Ref × List Nat)
  | 0, bs => .ok ([], bs)
  | n + 1, bs =>
    match readU16 bs with
    | .error e => .error e
    | .ok (idx, bs) =>
      match cp[idx]? with
      | none => .error (.panicked .expectedUtf8)
      | some t =>
        match cpUtf8RefNew idx t with
        | .error e => .error e
        | .ok r =>
          match readExceptionRefs cp n bs with
          | .error e => .error e
          | .ok (rs, bs) => .ok (r :: rs, bs)

/-- The entry loop of the NestMembers attribute (lines 532-543). -/
def readNestMembers (cp : List IRCpTag) :
    Nat → List Nat → Except Err (List CPClassRef × List Nat)
  | 0, bs => .ok ([], bs)
  | n + 1, bs =>
    match readU16 bs with
    | .error e => .error e
    | .ok (idx, bs) =>
      match resolveClass cp idx with
      | .error e => .error e
      | .ok r =>
        match readNestMembers cp n bs with
        | .error e => .error e
        | .ok (rs, bs) => .ok (r :: rs, bs)

mutual
/-- RuntimeAnnotationValue (attribute.rs lines 326-337).  The nested
annotation variant of the source is Annotation(Box<RuntimeAnnotation>);
it is named Annot here. -/
inductive RuntimeAnnotationValue
  | ConstValueIndex (idx : Nat)
  | EnumConstValue (type_name_index const_name_index : Nat)
  | ClassInfoIndex (idx : Nat)
  | Annot (a : RuntimeAnnotationData)
  | ArrayValue (values : List RuntimeAnnotationValue)

/-- RuntimeAnnotation (lines 382-385) with its RuntimeAnnotationEVPair list
flattened to (name, value) pairs. -/
inductive RuntimeAnnotationData
  | mk (ty : CPUtf8Ref) (pairs : List (CPUtf8Ref × RuntimeAnnotationValue))
end

mutual
/-- IRAttribute (attribute.rs lines 433-476).  Wrapper structs holding a
single list (StackMapTableAttribute, InnerClassesAttribute,
LineNumberTableAttribute) are flattened into the variant's field. -/
inductive IRAttribute
  | ConstantValue (v : ConstantValueAttribute)
  | Code (c : CodeAttribute)
  | StackMapTable (entries : List StackMapFrame)
  | Exceptions (exception_index_table : List CPUtf8Ref)
  | InnerClasses (classes : List InnerClassesAttributeClass)
  | EnclosingMethod (class_idx : Nat) (method : CPNameAndTypeRef)
  | Synthetic
  | Signature (r : CPUtf8Ref)
  | SourceFile (r : CPUtf8Ref)
  | SourceDebugExtension
  | LineNumberTable (line_number_table : List LineNumberTableAttributeEntry)
  | LocalVariableTable
  | LocalVariableTypeTable
  | Deprecated
  | RuntimeVisibleAnnotations (annotations : List RuntimeAnnotationData)
  | RuntimeInvisibleAnnotations (annotations : List RuntimeAnnotationData)
  | RuntimeVisibleParameterAnnotations
      (params : List (List RuntimeAnnotationData))
  | RuntimeInvisibleParameterAnnotations
      (params : List (List RuntimeAnnotationData))
  | AnnotationDefault
  | BootstrapMethods
  | NestMembers (classes : List CPClassRef)
  | NestHost (r : CPClassRef)
  | MethodParameters (parameters : List MethodParametersParam)

/-- CodeAttribute (lines 235-241), as a one-constructor inductive because
it is mutually recursive with IRAttributeInfo. -/
inductive CodeAttribute
  | mk (max_stack max_locals : Nat) (code : List Nat)
      (exception_table : List CodeAttributeException)
      (attributes : List IRAttributeInfo)

/-- IRAttributeInfo (lines 410-414). -/
inductive IRAttributeInfo
  | mk (name : CPUtf8Ref) (length : Nat) (attr : IRAttribute)
end

mutual
/-- RuntimeAnnotationValue::new (lines 340-372).  One tag byte selects the
value grammar; the '@' arm is todo!() and the catch-all arm panic!, both
process aborts.  Fuel decreases on every nested call; the source recursion
depth is bounded by the payload size, so a fuel of the payload length plus
one per nesting level always suffices. -/
def runtimeAnnotationValueNewF : Nat → List IRCpTag → List Nat →
    Except Err (RuntimeAnnotationValue × List Nat)
  | 0, _, _ => .error .outOfFuel
  | fuel + 1, cp, bs =>
    match readU8 bs with
    | .error e => .error e
    | .ok (tag, bs) =>
      if tag = 66 ∨ tag = 67 ∨ tag = 68 ∨ tag = 70 ∨ tag = 73 ∨ tag = 74 ∨
          tag = 83 ∨ tag = 90 ∨ tag = 115 then
        match readU16 bs with
        | .error e => .error e
        | .ok (v, bs) => .ok (.ConstValueIndex v, bs)
      else if tag = 101 then
        match readU16 bs with
        | .error e => .error e
        | .ok (t, bs) =>
          match readU16 bs with
          | .error e => .error e
          | .ok (c, bs) => .ok (.EnumConstValue t c, bs)
      else if tag = 99 then
        match readU16 bs with
        | .error e => .error e
        | .ok (v, bs) => .ok (.ClassInfoIndex v, bs)
      else if tag = 64 then .error (.panicked .todoAnnotValue)
      else if tag = 91 then
        match readU16 bs with
        | .error e => .error e
        | .ok (n, bs) =>
          match annotationValuesLoopF fuel cp n bs with
          | .error e => .error e
          | .ok (vs, bs) => .ok (.ArrayValue vs, bs)
      else .error (.panicked .invalidAnnotationTag)

/-- The element loop of the '[' (array) annotation value. -/
def annotationValuesLoopF : Nat → List IRCpTag → Nat → List Nat →
    Except Err (List RuntimeAnnotationValue × List Nat)
  | 0, _, _, _ => .error .outOfFuel
  | _ + 1, _, 0, bs => .ok ([], bs)
  | fuel + 1, cp, n + 1, bs =>
    match runtimeAnnotationValueNewF fuel cp bs with
    | .error e => .error e
    | .ok (v, bs) =>
      match annotationValuesLoopF fuel cp n bs with
      | .error e => .error e
      | .ok (vs, bs) => .ok (v :: vs, bs)

/-- The element-value-pair loop of RuntimeAnnotation::new (lines 395-403). -/
def annotationEVPairsLoopF : Nat → List IRCpTag → Nat → List Nat →
    Except Err (List (CPUtf8Ref × RuntimeAnnotationValue) × List Nat)
  | 0, _, _, _ => .error .outOfFuel
  | _ + 1, _, 0, bs => .ok ([], bs)
  | fuel + 1, cp, n + 1, bs =>
    match readU16 bs with
    | .error e => .error e
    | .ok (nameIdx, bs) =>
      match resolveUtf8 cp nameIdx with
      | .error e => .error e
      | .ok name =>
        match runtimeAnnotationValueNewF fuel cp bs with
        | .error e => .error e
        | .ok (v, bs) =>
          match annotationEVPairsLoopF fuel cp n bs with
          | .error e => .error e
          | .ok (ps, bs) => .ok ((name, v) :: ps, bs)

/-- RuntimeAnnotation::new (lines 388-406). -/
def runtimeAnnotationNewF : Nat → List IRCpTag → List Nat →
    Except Err (RuntimeAnnotationData × List Nat)
  | 0, _, _ => .error .outOfFuel
  | fuel + 1, cp, bs =>
    match readU16 bs with
    | .error e => .error e
    | .ok (tyIdx, bs) =>
      match resolveUtf8 cp tyIdx with
      | .error e => .error e
      | .ok ty =>
        match readU16 bs with
        | .error e => .error e
        | .ok (nPairs, bs) =>
          match annotationEVPairsLoopF fuel cp nPairs bs with
          | .error e => .error e
          | .ok (pairs, bs) => .ok (.mk ty pairs, bs)

/-- The annotation loop shared by the four Runtime*Annotations branches. -/
def annotationsLoopF : Nat → List IRCpTag → Nat → List Nat →
    Except Err (List RuntimeAnnotationData × List Nat)
  | 0, _, _, _ => .error .outOfFuel
  | _ + 1, _, 0, bs => .ok ([], bs)
  | fuel + 1, cp, n + 1, bs =>
    match runtimeAnnotationNewF fuel cp bs with
    | .error e => .error e
    | .ok (a, bs) =>
      match annotationsLoopF fuel cp n bs with
      | .error e => .error e
      | .ok (as_, bs) => .ok (a :: as_, bs)

/-- The per-parameter loop of the Runtime*ParameterAnnotations branches:
each parameter carries a u16-count-prefixed annotation list. -/
def paramAnnotationsLoopF : Nat → List IRCpTag → Nat → List Nat →
    Except Err (List (List RuntimeAnnotationData) × List Nat)
  | 0, _, _, _ => .error .outOfFuel
  | _ + 1, _, 0, bs => .ok ([], bs)
  | fuel + 1, cp, n + 1, bs =>
    match readU16 bs with
    | .error e => .error e
    | .ok (nAnn, bs) =>
      match annotationsLoopF fuel cp nAnn bs with
      | .error e => .error e
      | .ok (anns, bs) =>
        match paramAnnotationsLoopF fuel cp n bs with
        | .error e => .error e
        | .ok (ps, bs) => .ok (anns :: ps, bs)

/-- CodeAttribute::new (lines 244-272). -/
def codeAttributeNewF : Nat → List IRCpTag → List Nat →
    Except Err (CodeAttribute × List Nat)
  | 0, _, _ => .error .outOfFuel
  | fuel + 1, cp, bs =>
    match readU16 bs with
    | .error e => .error e
    | .ok (maxStack, bs) =>
      match readU16 bs with
      | .error e => .error e
      | .ok (maxLocals, bs) =>
        match readU32 bs with
        | .error e => .error e
        | .ok (codeLen, bs) =>
          match readN codeLen bs with
          | .error e => .error e
          | .ok (code, bs) =>
            match readU16 bs with
            | .error e => .error e
            | .ok (excLen, bs) =>
              match readCodeExceptions excLen bs with
              | .error e => .error e
              | .ok (excs, bs) =>
                match readU16 bs with
                | .error e => .error e
                | .ok (attrLen, bs) =>
                  match codeAttrsLoopF fuel cp attrLen bs with
                  | .error e => .error e
                  | .ok (attrs, bs) =>
                    .ok (.mk maxStack maxLocals code excs attrs, bs)

/-- The nested-attribute loop of CodeAttribute::new: each iteration reads
an IOAttributeInfo from the same buffer and lifts it recursively. -/
def codeAttrsLoopF : Nat → List IRCpTag → Nat → List Nat →
    Except Err (List IRAttributeInfo × List Nat)
  | 0, _, _, _ => .error .outOfFuel
  | _ + 1, _, 0, bs => .ok ([], bs)
  | fuel + 1, cp, n + 1, bs =>
    match ioAttributeInfoRead bs with
    | .error e => .error e
    | .ok (raw, bs) =>
      match irAttributeInfoFromIoF fuel cp raw with
      | .error e => .error e
      | .ok a =>
        match codeAttrsLoopF fuel cp n bs with
        | .error e => .error e
        | .ok (as_, bs) => .ok (a :: as_, bs)

/-- IRAttributeInfo::from_io (lines 417-430): resolve the name through
`cp.get(name_index as usize - 1).expect("invalid index")`, then dispatch
IRAttribute::new over a cursor on the payload.  The cursor - and with it
any bytes of the payload the grammar did not consume - is dropped without
any check. -/
def irAttributeInfoFromIoF : Nat → List IRCpTag → IOAttributeInfo →
    Except Err IRAttributeInfo
  | 0, _, _ => .error .outOfFuel
  | fuel + 1, cp, raw =>
    if raw.attribute_name_index = 0 then
      .error (.panicked .subtractOverflow)
    else
      match cp[raw.attribute_name_index - 1]? with
      | none => .error (.panicked .invalidIndex)
      | some t =>
        match cpUtf8RefNew raw.attribute_name_index t with
        | .error e => .error e
        | .ok name =>
          match irAttributeNewF fuel name cp raw.info with
          | .error e => .error e
          | .ok (attr, _) =>
            .ok (.mk name raw.attribute_length attr)

/-- IRAttribute::new (lines 479-631): name-keyed dispatch over the payload.
The catch-all arm is `panic!("unparsed attribute: {n}")`.  Returns the
decoded attribute together with the unconsumed remainder of the payload
(the source leaves those bytes in the dropped cursor without any check). -/
def irAttributeNewF : Nat → CPUtf8Ref → List IRCpTag → List Nat →
    Except Err (IRAttribute × List Nat)
  | 0, _, _, _ => .error .outOfFuel
  | fuel + 1, name, cp, data =>
    if name.data = strCodes ("ConstantValue") then
      match readU16 data with
      | .error e => .error e
      | .ok (cpIdx, data) =>
        if cpIdx = 0 then .error (.panicked .subtractOverflow)
        else
          match cp[cpIdx - 1]? with
          | none => .error (.panicked .invalidIndex)
          | some t =>
            match t with
            | .Integer v => .ok (.ConstantValue (.Int cpIdx v), data)
            | .Float v => .ok (.ConstantValue (.Float cpIdx v), data)
            | .Long v => .ok (.ConstantValue (.Long cpIdx v), data)
            | .Double v => .ok (.ConstantValue (.Double cpIdx v), data)
            | .String v => .ok (.ConstantValue (.String v), data)
            | _ => .error (.panicked .constValueBadTag)
    else if name.data = strCodes ("Code") then
      match codeAttributeNewF fuel cp data with
      | .error e => .error e
      | .ok (c, data) => .ok (.Code c, data)
    else if name.data = strCodes ("StackMapTable") then
      match readU16 data with
      | .error e => .error e
      | .ok (n, data) =>
        match readFrames n data with
        | .error e => .error e
        | .ok (entries, data) => .ok (.StackMapTable entries, data)
    else if name.data = strCodes ("Exceptions") then
      match readU16 data with
      | .error e => .error e
      | .ok (n, data) =>
        match readExceptionRefs cp n data with
        | .error e => .error e
        | .ok (refs, data) => .ok (.Exceptions refs, data)
    else if name.data = strCodes ("LineNumberTable") then
      match readU16 data with
      | .error e => .error e
      | .ok (n, data) =>
        match readLineNumbers n data with
        | .error e => .error e
        | .ok (es, data) => .ok (.LineNumberTable es, data)
    else if name.data = strCodes ("SourceFile") then
      match readU16 data with
      | .error e => .error e
      | .ok (idx, data) =>
        match resolveUtf8 cp idx with
        | .error e => .error e
        | .ok r => .ok (.SourceFile r, data)
    else if name.data = strCodes ("NestMembers") then
      match readU16 data with
      | .error e => .error e
      | .ok (n, data) =>
        match readNestMembers cp n data with
        | .error e => .error e
        | .ok (cs, data) => .ok (.NestMembers cs, data)
    else if name.data = strCodes ("InnerClasses") then
      match readU16 data with
      | .error e => .error e
      | .ok (n, data) =>
        match readInnerClasses cp n data with
        | .error e => .error e
        | .ok (cs, data) => .ok (.InnerClasses cs, data)
    else if name.data = strCodes ("Synthetic") then .ok (.Synthetic, data)
    else if name.data = strCodes ("Signature") then
      match readU16 data with
      | .error e => .error e
      | .ok (idx, data) =>
        match resolveUtf8 cp idx with
        | .error e => .error e
        | .ok r => .ok (.Signature r, data)
    else if name.data = strCodes ("NestHost") then
      match readU16 data with
      | .error e => .error e
      | .ok (idx, data) =>
        match resolveClass cp idx with
        | .error e => .error e
        | .ok r => .ok (.NestHost r, data)
    else if name.data = strCodes ("MethodParameters") then
      match readU8 data with
      | .error e => .error e
      | .ok (n, data) =>
        match readMethodParams cp n data with
        | .error e => .error e
        | .ok (ps, data) => .ok (.MethodParameters ps, data)
    else if name.data = strCodes ("Deprecated") then .ok (.Deprecated, data)
    else if name.data = strCodes ("RuntimeVisibleAnnotations") then
      match readU16 data with
      | .error e => .error e
      | .ok (n, data) =>
        match annotationsLoopF fuel cp n data with
        | .error e => .error e
        | .ok (anns, data) => .ok (.RuntimeVisibleAnnotations anns, data)
    else if name.data = strCodes ("RuntimeInvisibleAnnotations") then
      match readU16 data with
      | .error e => .error e
      | .ok (n, data) =>
        match annotationsLoopF fuel cp n data with
        | .error e => .error e
        | .ok (anns, data) => .ok (.RuntimeInvisibleAnnotations anns, data)
    else if name.data = strCodes ("RuntimeVisibleParameterAnnotations") then
      match readU8 data with
      | .error e => .error e
      | .ok (n, data) =>
        match paramAnnotationsLoopF fuel cp n data with
        | .error e => .error e
        | .ok (ps, data) =>
          .ok (.RuntimeVisibleParameterAnnotations ps, data)
    else if name.data = strCodes ("RuntimeInvisibleParameterAnnotations") then
      match readU8 data with
      | .error e => .error e
      | .ok (n, data) =>
        match paramAnnotationsLoopF fuel cp n data with
        | .error e => .error e
        | .ok (ps, data) =>
          .ok (.RuntimeInvisibleParameterAnnotations ps, data)
    else .error (.panicked .unparsedAttribute)
end

/-- Standard (strict) UTF-8 byte encoding of one code point, in plain
div/mod arithmetic; reference encoding for stating what the decoder's
output bytes are. -/
def utf8Enc (c : Nat) : List Nat :=
  if c < 128 then [c]
  else if c < 2048 then [192 + c / 64, 128 + c % 64]
  else if c < 65536 then [224 + c / 4096, 128 + c / 64 % 64, 128 + c % 64]
  else [240 + c / 262144, 128 + c / 4096 % 64, 128 + c / 64 % 64, 128 + c % 64]

/-- Byte image of a minimal class file whose constant pool holds one
Package entry (tag 20, name_index 1): magic, minor 0, major 0x34,
cp_count 2, the Package entry, then zero flags/this/super and empty
interface, field, method and attribute tables. -/
def packageClassBytes : List Nat :=
  [0xCA, 0xFE, 0xBA, 0xBE, 0, 0, 0, 0x34, 0, 2, 20, 0, 1,
   0, 0, 0, 0, 0, 0, 0, 0, 0, 0, 0, 0, 0, 0]

/-- The IOClassFile that reading packageClassBytes produces. -/
def packageClassFile : IOClassFile :=
  ⟨0xCAFEBABE, 0, 0x34, 2, [.Package 1], 0, 0, 0, 0, [], 0, [], 0, [], 0, []⟩

/-- Byte image of the E4 scenario: cp_count 4 with the pool bytes of
Long(5) followed by Utf8 "x", then zero flags/this/super and empty
tables.  Under the JVM spec the Long occupies two of the declared slots,
so exactly these two entries form the pool. -/
def longPoolClassBytes : List Nat :=
  [0xCA, 0xFE, 0xBA, 0xBE, 0, 0, 0, 0x34, 0, 4,
   5, 0, 0, 0, 0, 0, 0, 0, 5,
   1, 0, 1, 120,
   0, 0, 0, 0, 0, 0, 0, 0, 0, 0, 0, 0, 0, 0]

/-- A lifted pool whose entry 1 is the Utf8 string "SourceFile" and whose
entry 2 is the Utf8 string "x". -/
def sourceFilePool : List IRCpTag :=
  [.Utf8 (strCodes ("SourceFile")), .Utf8 [120]]

theorem and63_eq (x : Nat) : x &&& 63 = x % 64 := by
  have h := Nat.and_pow_two_sub_one_eq_mod x 6
  norm_num at h
  exact h

theorem and31_eq (x : Nat) : x &&& 31 = x % 32 := by
  have h := Nat.and_pow_two_sub_one_eq_mod x 5
  norm_num at h
  exact h

theorem and15_eq (x : Nat) : x &&& 15 = x % 16 := by
  have h := Nat.and_pow_two_sub_one_eq_mod x 4
  norm_num at h
  exact h

theorem or128_eq (x : Nat) (h : x < 64) : 128 ||| x = 128 + x := by
  have hb : x < 2 ^ 6 := by norm_num [h]
  have h3 := (Nat.mul_add_lt_is_or hb 2).symm
  norm_num at h3
  exact h3

theorem or192_eq (x : Nat) (h : x < 64) : 192 ||| x = 192 + x := by
  have hb : x < 2 ^ 6 := by norm_num [h]
  have h3 := (Nat.mul_add_lt_is_or hb 3).symm
  norm_num at h3
  exact h3

theorem or224_eq (x : Nat) (h : x < 32) : 224 ||| x = 224 + x := by
  have hb : x < 2 ^ 5 := by norm_num [h]
  have h3 := (Nat.mul_add_lt_is_or hb 7).symm
  norm_num at h3
  exact h3

theorem shr6_eq (c : Nat) : c >>> 6 = c / 64 := by
  rw [Nat.shiftRight_eq_div_pow]

theorem shr12_eq (c : Nat) : c >>> 12 = c / 4096 := by
  rw [Nat.shiftRight_eq_div_pow]

theorem encChar_zero : encChar 0 = [192, 128] := by decide

theorem encChar_ascii (c : Nat) (h0 : c ≠ 0) (h : c ≤ 127) :
    encChar c = [c] := by
  unfold encChar
  rw [if_neg h0, if_pos (by omega)]
  congr 1
  omega

theorem encChar_two (c : Nat) (h1 : 128 ≤ c) (h2 : c ≤ 2047) :
    encChar c = [192 + c / 64, 128 + c % 64] := by
  unfold encChar
  rw [if_neg (by omega), if_neg (by omega), if_pos (by omega)]
  rw [shr6_eq]
  rw [Nat.mod_eq_of_lt (show c / 64 < 256 by omega)]
  rw [Nat.and_comm 31 (c / 64), and31_eq, Nat.and_comm 63 c, and63_eq]
  rw [Nat.mod_eq_of_lt (show c / 64 < 32 by omega),
    Nat.mod_eq_of_lt (show c % 64 < 256 by omega),
    or192_eq _ (by omega), or128_eq _ (by omega)]

theorem encChar_three (c : Nat) (h1 : 2048 ≤ c) (h2 : c ≤ 32767) :
    encChar c = [224 + c / 4096, 128 + c / 64 % 64, 128 + c % 64] := by
  unfold encChar
  rw [if_neg (by omega), if_neg (by omega), if_neg (by omega),
    if_pos (by omega)]
  rw [shr6_eq, shr12_eq]
  rw [Nat.mod_eq_of_lt (show c / 4096 < 256 by omega)]
  rw [Nat.and_comm 15 (c / 4096), and15_eq, Nat.and_comm 63 _, and63_eq,
    Nat.and_comm 63 c, and63_eq]
  rw [Nat.mod_mod_of_dvd (c / 64) (show (64:Nat) ∣ 256 by norm_num)]
  rw [Nat.mod_eq_of_lt (show c / 4096 < 16 by omega),
    Nat.mod_eq_of_lt (show c % 64 < 256 by omega),
    or224_eq _ (by omega), or128_eq _ (by omega), or128_eq _ (by omega)]

theorem decodeLoopAux_ascii (gas b : Nat) (rest : List Nat)
    (h0 : b ≠ 0) (h1 : b < 128) :
    decodeLoopAux (gas + 1) (b :: rest) =
      match decodeLoopAux gas rest with
      | .error e => .error e
      | .ok out => .ok (b :: out) := by
  obtain ⟨k, rfl⟩ := Nat.exists_eq_succ_of_ne_zero h0
  simp only [decodeLoopAux, if_pos h1]

theorem decodeLoopAux_twoB (gas b b2 : Nat) (rest : List Nat)
    (h0 : b ≠ 0) (h1 : ¬ b < 128) (h2 : b &&& 224 = 192) :
    decodeLoopAux (gas + 1) (b :: b2 :: rest) =
      match decodeLoopAux gas rest with
      | .error e => .error e
      | .ok out =>
        if b ≠ 192 ∨ b2 ≠ 128 then .ok ([b, b2] ++ out)
        else .ok (0 :: out) := by
  obtain ⟨k, rfl⟩ := Nat.exists_eq_succ_of_ne_zero h0
  simp only [decodeLoopAux, if_neg h1, if_pos h2]

theorem decodeLoopAux_threeB (gas b b2 b3 : Nat) (rest : List Nat)
    (h0 : b ≠ 0) (h1 : ¬ b < 128) (h2 : ¬ b &&& 224 = 192)
    (h3 : b &&& 240 = 224) (hne : b ≠ 237) :
    decodeLoopAux (gas + 1) (b :: b2 :: b3 :: rest) =
      match decodeLoopAux gas rest with
      | .error e => .error e
      | .ok out => .ok ([b, b2, b3] ++ out) := by
  obtain ⟨k, rfl⟩ := Nat.exists_eq_succ_of_ne_zero h0
  rcases rest with _ | ⟨b4, _ | ⟨b5, _ | ⟨b6, rest6⟩⟩⟩
  · simp only [decodeLoopAux, if_neg h1, if_neg h2, if_pos h3]
  · simp only [decodeLoopAux, if_neg h1, if_neg h2, if_pos h3]
  · simp only [decodeLoopAux, if_neg h1, if_neg h2, if_pos h3]
  · simp only [decodeLoopAux, if_neg h1, if_neg h2, if_pos h3]
    rw [if_neg (by simp [hne])]

theorem and224_two (q : Nat) (h : q < 32) : (192 + q) &&& 224 = 192 := by
  interval_cases q <;> rfl

theorem and224_three (h : Nat) (hh : h < 16) : (224 + h) &&& 224 = 224 := by
  interval_cases h <;> rfl

theorem and240_three (h : Nat) (hh : h < 16) : (224 + h) &&& 240 = 224 := by
  interval_cases h <;> rfl

theorem decodeLoopAux_encode (s : List Nat) :
    ∀ gas, (∀ c ∈ s, c < 32768) → (mutf8Encode s).length ≤ gas →
    decodeLoopAux gas (mutf8Encode s) = .ok (s.flatMap utf8Enc) := by
  induction s with
  | nil =>
    intro gas _ _
    cases gas <;> rfl
  | cons c s ih =>
    intro gas hs hlen
    have hc : c < 32768 := hs c (List.mem_cons_self c s)
    have hs' : ∀ x ∈ s, x < 32768 := fun x hx => hs x (List.mem_cons_of_mem c hx)
    rw [show mutf8Encode (c :: s) = encChar c ++ mutf8Encode s from
      List.flatMap_cons c s encChar] at hlen ⊢
    rcases Nat.lt_or_ge c 128 with hr1 | hr1
    · rcases Nat.eq_zero_or_pos c with rfl | hpos
      · rw [encChar_zero] at hlen ⊢
        obtain ⟨g, rfl⟩ : ∃ g, gas = g + 1 := ⟨gas - 1, by simp at hlen; omega⟩
        simp only [List.cons_append, List.nil_append]
        rw [decodeLoopAux_twoB g 192 128 (mutf8Encode s) (by omega) (by omega)
          (by rfl), ih g hs' (by simp at hlen; omega)]
        dsimp only
        rw [if_neg (by simp)]
        simp [utf8Enc]
      · rw [encChar_ascii c (by omega) (by omega)] at hlen ⊢
        obtain ⟨g, rfl⟩ : ∃ g, gas = g + 1 := ⟨gas - 1, by simp at hlen; omega⟩
        simp only [List.cons_append, List.nil_append]
        rw [decodeLoopAux_ascii g c (mutf8Encode s) (by omega) (by omega),
          ih g hs' (by simp at hlen; omega)]
        have hu : utf8Enc c = [c] := by rw [utf8Enc, if_pos (by omega)]
        simp [hu]
    · rcases Nat.lt_or_ge c 2048 with hr2 | hr2
      · rw [encChar_two c (by omega) (by omega)] at hlen ⊢
        obtain ⟨g, rfl⟩ : ∃ g, gas = g + 1 := ⟨gas - 1, by simp at hlen; omega⟩
        simp only [List.cons_append, List.nil_append]
        rw [decodeLoopAux_twoB g (192 + c / 64) (128 + c % 64) (mutf8Encode s)
          (by omega) (by omega) (and224_two _ (by omega)),
          ih g hs' (by simp at hlen; omega)]
        dsimp only
        rw [if_pos (Or.inl (by omega))]
        have hu : utf8Enc c = [192 + c / 64, 128 + c % 64] := by
          rw [utf8Enc, if_neg (by omega), if_pos (by omega)]
        simp [hu]
      · rw [encChar_three c (by omega) (by omega)] at hlen ⊢
        obtain ⟨g, rfl⟩ : ∃ g, gas = g + 1 := ⟨gas - 1, by simp at hlen; omega⟩
        simp only [List.cons_append, List.nil_append]
        rw [decodeLoopAux_threeB g (224 + c / 4096) (128 + c / 64 % 64)
          (128 + c % 64) (mutf8Encode s) (by omega) (by omega)
          (by rw [and224_three _ (by omega)]; omega)
          (and240_three _ (by omega)) (by omega),
          ih g hs' (by simp at hlen; omega)]
        have hu : utf8Enc c = [224 + c / 4096, 128 + c / 64 % 64, 128 + c % 64] := by
          rw [utf8Enc, if_neg (by omega), if_neg (by omega), if_pos (by omega)]
        simp [hu]

theorem decodeLoopAux_pre (pre : List Nat) :
    ∀ rest gas, (∀ b ∈ pre, 0 < b ∧ b < 128) → (pre ++ rest).length ≤ gas →
    decodeLoopAux gas (pre ++ rest) =
      match decodeLoopAux (gas - pre.length) rest with
      | .error e => .error e
      | .ok out => .ok (pre ++ out) := by
  induction pre with
  | nil =>
    intro rest gas _ _
    simp only [List.nil_append, List.length_nil, Nat.sub_zero]
    cases h : decodeLoopAux gas rest <;> simp
  | cons b pre ih =>
    intro rest gas hb hlen
    have hbb := hb b (List.mem_cons_self b pre)
    obtain ⟨g, rfl⟩ : ∃ g, gas = g + 1 := ⟨gas - 1, by simp at hlen; omega⟩
    rw [List.cons_append, decodeLoopAux_ascii g b _ (by omega) hbb.2]
    rw [ih rest g (fun x hx => hb x (List.mem_cons_of_mem b hx))
      (by simp at hlen ⊢; omega)]
    have hg : g + 1 - (b :: pre).length = g - pre.length := by simp
    rw [hg]
    cases decodeLoopAux (g - pre.length) rest <;> simp

theorem fastSkipAux_spec (gas : Nat) : ∀ bs : List Nat,
    (fastSkipAux gas bs).1 ++ (fastSkipAux gas bs).2 = bs ∧
    ∀ b ∈ (fastSkipAux gas bs).1, b < 128 := by
  induction gas with
  | zero => intro bs; simp [fastSkipAux]
  | succ g ih =>
    intro bs
    rw [fastSkipAux]
    split
    · rename_i h
      obtain ⟨h1, h2⟩ := ih (bs.drop 16)
      refine ⟨?_, ?_⟩
      · rw [List.append_assoc, h1]
        exact List.take_append_drop 16 bs
      · intro b hbmem
        rcases List.mem_append.1 hbmem with hm | hm
        · have hall := h.2
          rw [List.all_eq_true] at hall
          exact of_decide_eq_true (hall b hm)
        · exact h2 b hm
    · simp

theorem encChar_byte_pos (c : Nat) (hc : c < 32768) :
    ∀ b ∈ encChar c, b < 128 → 0 < b := by
  intro b hb hlt
  rcases Nat.lt_or_ge c 128 with hr1 | hr1
  · rcases Nat.eq_zero_or_pos c with rfl | hpos
    · rw [encChar_zero, List.mem_cons, List.mem_singleton] at hb
      rcases hb with rfl | rfl <;> omega
    · rw [encChar_ascii c (by omega) (by omega), List.mem_singleton] at hb
      omega
  · rcases Nat.lt_or_ge c 2048 with hr2 | hr2
    · rw [encChar_two c (by omega) (by omega), List.mem_cons,
        List.mem_singleton] at hb
      rcases hb with rfl | rfl <;> omega
    · rw [encChar_three c (by omega) (by omega), List.mem_cons, List.mem_cons,
        List.mem_singleton] at hb
      rcases hb with rfl | rfl | rfl <;> omega

theorem mutf8Encode_byte_pos (s : List Nat) (hs : ∀ c ∈ s, c < 32768) :
    ∀ b ∈ mutf8Encode s, b < 128 → 0 < b := by
  intro b hb hlt
  rw [mutf8Encode, List.mem_flatMap] at hb
  obtain ⟨c, hcm, hbc⟩ := hb
  exact encChar_byte_pos c (hs c hcm) b hbc hlt

theorem utf8DecOne_one (b : Nat) (bs : List Nat) (h : b < 128) :
    utf8DecOne (b :: bs) = some (b, bs) := by
  rw [utf8DecOne.eq_def]
  dsimp only
  rw [if_pos h]

theorem utf8DecOne_two (b b2 : Nat) (bs : List Nat)
    (h1 : ¬ b < 128) (h2 : ¬ b < 194) (h3 : b < 224)
    (h4 : 128 ≤ b2 ∧ b2 < 192) :
    utf8DecOne (b :: b2 :: bs) = some ((b - 192) * 64 + (b2 - 128), bs) := by
  rw [utf8DecOne.eq_def]
  dsimp only
  rw [if_neg h1, if_neg h2, if_pos h3, if_pos h4]

theorem utf8DecOne_three (b b2 b3 : Nat) (bs : List Nat)
    (h1 : ¬ b < 128) (h2 : ¬ b < 194) (h3 : ¬ b < 224) (h3b : b < 240)
    (h4 : (128 ≤ b2 ∧ b2 < 192) ∧ (128 ≤ b3 ∧ b3 < 192) ∧
      2048 ≤ (b - 224) * 4096 + (b2 - 128) * 64 + (b3 - 128) ∧
      ¬(55296 ≤ (b - 224) * 4096 + (b2 - 128) * 64 + (b3 - 128) ∧
        (b - 224) * 4096 + (b2 - 128) * 64 + (b3 - 128) ≤ 57343)) :
    utf8DecOne (b :: b2 :: b3 :: bs) =
      some ((b - 224) * 4096 + (b2 - 128) * 64 + (b3 - 128), bs) := by
  rw [utf8DecOne.eq_def]
  dsimp only
  rw [if_neg h1, if_neg h2, if_neg h3, if_pos h3b, if_pos h4]

theorem utf8Enc_ne_nil (c : Nat) : utf8Enc c ≠ [] := by
  unfold utf8Enc
  split_ifs <;> simp

theorem utf8DecOne_enc (c : Nat) (hc : c < 32768) (rest : List Nat) :
    utf8DecOne (utf8Enc c ++ rest) = some (c, rest) := by
  rcases Nat.lt_or_ge c 128 with hr1 | hr1
  · rw [show utf8Enc c = [c] from by rw [utf8Enc, if_pos (by omega)]]
    simp only [List.cons_append, List.nil_append]
    rw [utf8DecOne_one c rest (by omega)]
  · rcases Nat.lt_or_ge c 2048 with hr2 | hr2
    · rw [show utf8Enc c = [192 + c / 64, 128 + c % 64] from by
        rw [utf8Enc, if_neg (by omega), if_pos (by omega)]]
      simp only [List.cons_append, List.nil_append]
      rw [utf8DecOne_two _ _ rest (by omega) (by omega) (by omega)
        (by omega)]
      congr 2
      omega
    · rw [show utf8Enc c = [224 + c / 4096, 128 + c / 64 % 64, 128 + c % 64]
          from by rw [utf8Enc, if_neg (by omega), if_neg (by omega),
            if_pos (by omega)]]
      simp only [List.cons_append, List.nil_append]
      rw [utf8DecOne_three _ _ _ rest (by omega) (by omega) (by omega)
        (by omega) (by refine ⟨by omega, by omega, by omega, by omega⟩)]
      congr 2
      omega

theorem utf8ParseAux_enc (s : List Nat) :
    ∀ gas, (∀ c ∈ s, c < 32768) → (s.flatMap utf8Enc).length ≤ gas →
    utf8ParseAux gas (s.flatMap utf8Enc) = some s := by
  induction s with
  | nil =>
    intro gas _ _
    cases gas <;> rfl
  | cons c s ih =>
    intro gas hs hlen
    have hc : c < 32768 := hs c (List.mem_cons_self c s)
    have hs' : ∀ x ∈ s, x < 32768 := fun x hx => hs x (List.mem_cons_of_mem c hx)
    rw [List.flatMap_cons] at hlen ⊢
    obtain ⟨b, tail, hbt⟩ :=
      List.exists_cons_of_ne_nil (utf8Enc_ne_nil c)
    have hel : 1 ≤ (utf8Enc c).length := by rw [hbt]; simp
    obtain ⟨g, rfl⟩ : ∃ g, gas = g + 1 :=
      ⟨gas - 1, by rw [List.length_append] at hlen; omega⟩
    have hbound : (s.flatMap utf8Enc).length ≤ g := by
      rw [List.length_append] at hlen; omega
    rw [hbt, List.cons_append, utf8ParseAux, ← List.cons_append, ← hbt,
      utf8DecOne_enc c hc]
    · dsimp only
      rw [ih g hs' hbound]
    · simp

theorem utf8Parse_enc (s : List Nat) (hs : ∀ c ∈ s, c < 32768) :
    utf8Parse (s.flatMap utf8Enc) = some s :=
  utf8ParseAux_enc s (s.flatMap utf8Enc).length hs (Nat.le_refl _)

/-- C2 (amended): decode(encode(s)) = s holds for every string of code
points below 0x8000 - the encoder's 3-byte class is 0x800..0x7FFF, not
0x800..0xFFFF as the claim states, and for code points at or above 0x8000
(both BMP and supplementary) the 6-byte branch is taken, which decode does
not invert. -/
theorem c2_roundtrip_small (s : List Nat) (h : ∀ c ∈ s, c < 32768) :
    mutf8Decode (mutf8Encode s) = .ok s := by
  obtain ⟨hsplit, hascii⟩ :=
    fastSkipAux_spec (mutf8Encode s).length (mutf8Encode s)
  set pre := (fastSkipAux (mutf8Encode s).length (mutf8Encode s)).1 with hpre
  set rest := (fastSkipAux (mutf8Encode s).length (mutf8Encode s)).2 with hrest
  have hnz : ∀ b ∈ pre, 0 < b ∧ b < 128 := fun b hb =>
    ⟨mutf8Encode_byte_pos s h b (hsplit ▸ List.mem_append_left rest hb)
      (hascii b hb), hascii b hb⟩
  have hlen : (pre ++ rest).length ≤ (mutf8Encode s).length := by rw [hsplit]
  have hmain := decodeLoopAux_pre pre rest (mutf8Encode s).length hnz hlen
  rw [hsplit, decodeLoopAux_encode s (mutf8Encode s).length h (Nat.le_refl _)]
    at hmain
  have hlen2 : (mutf8Encode s).length - pre.length = rest.length := by
    rw [← hsplit]; simp
  rw [hlen2] at hmain
  show (match decodeLoopAux rest.length rest with
    | Except.error e => Except.error e
    | Except.ok out =>
      match utf8Parse (pre ++ out) with
      | some s2 => Except.ok s2
      | none => Except.error MUTFError.FromUTF8Err) = Except.ok s
  cases hres : decodeLoopAux rest.length rest with
  | error e =>
    rw [hres] at hmain
    exact absurd hmain (by simp)
  | ok out =>
    rw [hres] at hmain
    have hflat : pre ++ out = s.flatMap utf8Enc := by
      have := hmain
      simp only [Except.ok.injEq] at this
      exact this.symm
    dsimp only
    rw [hflat, utf8Parse_enc s h]

/-- C7 (amended): attribute decoding consumes exactly the bytes its
grammar needs and silently ignores any remaining payload bytes; no
TrailingBytes check or error exists.  Shown on a SourceFile attribute: for
every trailing byte list and every stored length the lift succeeds with
the same result. -/
theorem c7_trailing_ignored (extra : List Nat) (len fuel : Nat) :
    irAttributeInfoFromIoF (fuel + 2) sourceFilePool ⟨1, len, [0, 2] ++ extra⟩ =
      .ok (.mk ⟨strCodes ("SourceFile"), 1⟩ len (.SourceFile ⟨[120], 2⟩)) := rfl

/-- C10: when decoding an Exceptions attribute, a u16 table index i is
resolved at physical position i (cp.get(i) with no - 1), i.e. logical
index i + 1, one entry past the slot every other resolution site uses
(shown by contrast with SourceFile, which resolves the same index at
position i - 1), and the entry found there must be a Utf8 entry. -/
theorem c10_exceptions_off_by_one (cp : List IRCpTag) (i : Nat)
    (s t : List Nat) (fuel : Nat) (hi : i < 65536)
    (h1 : cp[i]? = some (.Utf8 s)) (h2 : 1 ≤ i)
    (h3 : cp[i - 1]? = some (.Utf8 t)) :
    irAttributeNewF (fuel + 1) ⟨strCodes ("Exceptions"), 9⟩ cp
        [0, 1, i / 256, i % 256] = .ok (.Exceptions [⟨s, i⟩], []) ∧
    irAttributeNewF (fuel + 1) ⟨strCodes ("SourceFile"), 9⟩ cp
        [i / 256, i % 256] = .ok (.SourceFile ⟨t, i⟩, []) := by
  have hidx : i / 256 * 256 + i % 256 = i := by omega
  constructor
  · simp only [irAttributeNewF]
    rw [if_neg (by decide), if_neg (by decide), if_neg (by decide),
      if_pos (by decide)]
    rw [show readU16 [0, 1, i / 256, i % 256] =
      .ok (1, [i / 256, i % 256]) from rfl]
    dsimp only
    simp only [readExceptionRefs, readU16]
    rw [hidx, h1]
    dsimp only [cpUtf8RefNew]
  · simp only [irAttributeNewF]
    rw [if_neg (by decide), if_neg (by decide), if_neg (by decide),
      if_neg (by decide), if_neg (by decide), if_pos (by decide)]
    simp only [readU16]
    rw [hidx]
    dsimp only [resolveUtf8]
    rw [if_neg (by omega), h3]
    dsimp only [cpUtf8RefNew]

theorem parseTagF_cyclic (fuel : Nat) :
    parseTagF fuel (.Class 1) [.Class 1] [] = .error .outOfFuel := by
  induction fuel with
  | zero => rfl
  | succ f ih => simp [parseTagF, ih]

/-- C8 (counterexample): the lifter has no visited set and does not
terminate on a cyclic pool: for the self-referential pool [Class 1] the
recursion exhausts every finite fuel, so no fuel makes IRCpTag::from_io
complete. -/
theorem c8_cyclic_pool_never_lifts : ¬ LiftCompletes [IOCpTag.Class 1] := by
  rw [LiftCompletes]
  push_neg
  intro fuel
  rw [cpFromIoF]
  simp only [cpFromIoGo]
  rw [parseTagF_cyclic fuel]

theorem cpUtf8RefNew_ne (i : Nat) (t : IRCpTag) :
    cpUtf8RefNew i t ≠ .error .outOfFuel := by
  cases t <;> simp [cpUtf8RefNew]

theorem irMethodRefKindFrom_ne (v : Nat) :
    irMethodRefKindFrom v ≠ .error .outOfFuel := by
  unfold irMethodRefKindFrom
  split_ifs <;> simp

theorem parseTagF_utf8 (f len : Nat) (bytes : List Nat) (raw : List IOCpTag)
    (formed : List IRCpTag) :
    parseTagF (f + 1) (.Utf8 len bytes) raw formed =
      (match mutf8Decode bytes with
       | .error e => .error (.mutf8 e)
       | .ok s => .ok (.Utf8 s)) := rfl

theorem parseTagF_class (f n : Nat) (raw : List IOCpTag)
    (formed : List IRCpTag) :
    parseTagF (f + 1) (.Class n) raw formed =
      (match parseTagIdxF f n raw formed with
       | .error e => .error e
       | .ok u =>
         match cpUtf8RefNew n u with
         | .error e => .error e
         | .ok r => .ok (.Class r)) := rfl

theorem parseTagF_string (f n : Nat) (raw : List IOCpTag)
    (formed : List IRCpTag) :
    parseTagF (f + 1) (.String n) raw formed =
      (match parseTagIdxF f n raw formed with
       | .error e => .error e
       | .ok u =>
         match cpUtf8RefNew n u with
         | .error e => .error e
         | .ok r => .ok (.String r)) := rfl

theorem parseTagF_fieldRef (f c n : Nat) (raw : List IOCpTag)
    (formed : List IRCpTag) :
    parseTagF (f + 1) (.FieldRef c n) raw formed =
      (match parseTagIdxF f n raw formed with
       | .error e => .error e
       | .ok t =>
         match t with
         | .NameAndType name descriptor =>
           .ok (.FieldRef c ⟨n, name, descriptor⟩)
         | _ => .error (.panicked .expectedNameAndType)) := rfl

theorem parseTagF_methodRef (f c n : Nat) (raw : List IOCpTag)
    (formed : List IRCpTag) :
    parseTagF (f + 1) (.MethodRef c n) raw formed =
      (match parseTagIdxF f n raw formed with
       | .error e => .error e
       | .ok t =>
         match t with
         | .NameAndType name descriptor =>
           .ok (.MethodRef c ⟨n, name, descriptor⟩)
         | _ => .error (.panicked .expectedNameAndType)) := rfl

theorem parseTagF_ifaceRef (f c n : Nat) (raw : List IOCpTag)
    (formed : List IRCpTag) :
    parseTagF (f + 1) (.InterfaceMethodRef c n) raw formed =
      (match parseTagIdxF f n raw formed with
       | .error e => .error e
       | .ok t =>
         match t with
         | .NameAndType name descriptor =>
           .ok (.InterfaceMethodRef c ⟨n, name, descriptor⟩)
         | _ => .error (.panicked .expectedNameAndType)) := rfl

theorem parseTagF_nameAndType (f n d : Nat) (raw : List IOCpTag)
    (formed : List IRCpTag) :
    parseTagF (f + 1) (.NameAndType n d) raw formed =
      (match parseTagIdxF f n raw formed with
       | .error e => .error e
       | .ok nt =>
         match parseTagIdxF f d raw formed with
         | .error e => .error e
         | .ok dt =>
           match cpUtf8RefNew n nt with
           | .error e => .error e
           | .ok nr =>
             match cpUtf8RefNew d dt with
             | .error e => .error e
             | .ok dr => .ok (.NameAndType nr dr)) := rfl

theorem parseTagF_methodHandle (f k i : Nat) (raw : List IOCpTag)
    (formed : List IRCpTag) :
    parseTagF (f + 1) (.MethodHandle k i) raw formed =
      (match irMethodRefKindFrom k with
       | .error e => .error e
       | .ok kind =>
         match parseTagIdxF f i raw formed with
         | .error e => .error e
         | .ok t => .ok (.MethodHandle kind i t)) := rfl

theorem parseTagF_methodType (f d : Nat) (raw : List IOCpTag)
    (formed : List IRCpTag) :
    parseTagF (f + 1) (.MethodType d) raw formed =
      (match parseTagIdxF f d raw formed with
       | .error e => .error e
       | .ok t =>
         match cpUtf8RefNew d t with
         | .error e => .error e
         | .ok r => .ok (.MethodType r)) := rfl

theorem parseTagF_invokeDynamic (f b n : Nat) (raw : List IOCpTag)
    (formed : List IRCpTag) :
    parseTagF (f + 1) (.InvokeDynamic b n) raw formed =
      (match parseTagIdxF f n raw formed with
       | .error e => .error e
       | .ok t =>
         match t with
         | .NameAndType name descriptor =>
           .ok (.InvokeDynamic b ⟨n, name, descriptor⟩)
         | _ => .error (.panicked .expectedNameAndType)) := rfl

theorem parseTagF_module (f n : Nat) (raw : List IOCpTag)
    (formed : List IRCpTag) :
    parseTagF (f + 1) (.Module n) raw formed =
      (match parseTagIdxF f n raw formed with
       | .error e => .error e
       | .ok u =>
         match cpUtf8RefNew n u with
         | .error e => .error e
         | .ok r => .ok (.Module r)) := rfl

theorem parseTagF_package (f n : Nat) (raw : List IOCpTag)
    (formed : List IRCpTag) :
    parseTagF (f + 1) (.Package n) raw formed =
      (match parseTagIdxF f n raw formed with
       | .error e => .error e
       | .ok u =>
         match cpUtf8RefNew n u with
         | .error e => .error e
         | .ok r => .ok (.Package r)) := rfl

theorem parseTagF_measure_completes (raw : List IOCpTag) (m : Nat → Nat)
    (hm : ∀ p q, RefEdge raw p q → m q < m p) :
    ∀ fuel p t, raw[p]? = some t → m p < fuel →
    ∀ formed, parseTagF fuel t raw formed ≠ .error .outOfFuel := by
  intro fuel
  induction fuel with
  | zero => intro p t _ hmp _; omega
  | succ f ih =>
    intro p t hp hmp formed
    have hidx : ∀ idx, idx ∈ ioCpTagRefIdxs t →
        parseTagIdxF f idx raw formed ≠ .error .outOfFuel := by
      intro idx hin
      rw [parseTagIdxF]
      split
      · simp
      · rename_i h0
        cases hq : raw[idx - 1]? with
        | none => simp
        | some rawTag =>
          have hql : idx - 1 < raw.length := (List.getElem?_eq_some_iff.1 hq).1
          have hedge : RefEdge raw p (idx - 1) :=
            ⟨t, idx, hp, hin, by omega, rfl, hql⟩
          have hmq : m (idx - 1) < f := by
            have := hm p (idx - 1) hedge
            omega
          have hne := ih (idx - 1) rawTag hq hmq formed
          cases hres : parseTagF f rawTag raw formed with
          | error e =>
            rw [hres] at hne
            simpa [hres] using hne
          | ok parsed =>
            cases formed[idx - 1]? <;> simp [hres]
    cases t with
    | Utf8 len bytes =>
      rw [parseTagF_utf8]
      cases mutf8Decode bytes <;> simp
    | Integer bytes =>
      rw [show parseTagF (f + 1) (.Integer bytes) raw formed =
        .ok (.Integer (beVal bytes)) from rfl]
      simp
    | Float bytes =>
      rw [show parseTagF (f + 1) (.Float bytes) raw formed =
        .ok (.Float (beVal bytes)) from rfl]
      simp
    | Long bytes =>
      rw [show parseTagF (f + 1) (.Long bytes) raw formed =
        .ok (.Long (beVal bytes)) from rfl]
      simp
    | Double bytes =>
      rw [show parseTagF (f + 1) (.Double bytes) raw formed =
        .ok (.Double (beVal bytes)) from rfl]
      simp
    | Class n =>
      rw [parseTagF_class]
      cases hpi : parseTagIdxF f n raw formed with
      | error e =>
        have h1 := hidx n (by simp [ioCpTagRefIdxs])
        rw [hpi] at h1
        simpa [hpi] using h1
      | ok u =>
        cases hcu : cpUtf8RefNew n u with
        | error e =>
          have h2 := cpUtf8RefNew_ne n u
          rw [hcu] at h2
          simpa [hcu] using h2
        | ok r => simp [hcu]
    | String n =>
      rw [parseTagF_string]
      cases hpi : parseTagIdxF f n raw formed with
      | error e =>
        have h1 := hidx n (by simp [ioCpTagRefIdxs])
        rw [hpi] at h1
        simpa [hpi] using h1
      | ok u =>
        cases hcu : cpUtf8RefNew n u with
        | error e =>
          have h2 := cpUtf8RefNew_ne n u
          rw [hcu] at h2
          simpa [hcu] using h2
        | ok r => simp [hcu]
    | FieldRef c n =>
      rw [parseTagF_fieldRef]
      cases hpi : parseTagIdxF f n raw formed with
      | error e =>
        have h1 := hidx n (by simp [ioCpTagRefIdxs])
        rw [hpi] at h1
        simpa [hpi] using h1
      | ok u => cases u <;> simp
    | MethodRef c n =>
      rw [parseTagF_methodRef]
      cases hpi : parseTagIdxF f n raw formed with
      | error e =>
        have h1 := hidx n (by simp [ioCpTagRefIdxs])
        rw [hpi] at h1
        simpa [hpi] using h1
      | ok u => cases u <;> simp
    | InterfaceMethodRef c n =>
      rw [parseTagF_ifaceRef]
      cases hpi : parseTagIdxF f n raw formed with
      | error e =>
        have h1 := hidx n (by simp [ioCpTagRefIdxs])
        rw [hpi] at h1
        simpa [hpi] using h1
      | ok u => cases u <;> simp
    | NameAndType n d =>
      rw [parseTagF_nameAndType]
      cases hpi : parseTagIdxF f n raw formed with
      | error e =>
        have h1 := hidx n (by simp [ioCpTagRefIdxs])
        rw [hpi] at h1
        simpa [hpi] using h1
      | ok nt =>
        cases hpd : parseTagIdxF f d raw formed with
        | error e =>
          have h1 := hidx d (by simp [ioCpTagRefIdxs])
          rw [hpd] at h1
          simpa [hpd] using h1
        | ok dt =>
          cases hcn : cpUtf8RefNew n nt with
          | error e =>
            have h2 := cpUtf8RefNew_ne n nt
            rw [hcn] at h2
            simpa [hpd, hcn] using h2
          | ok nr =>
            cases hcd : cpUtf8RefNew d dt with
            | error e =>
              have h2 := cpUtf8RefNew_ne d dt
              rw [hcd] at h2
              simpa [hpd, hcn, hcd] using h2
            | ok dr => simp [hpd, hcn, hcd]
    | MethodHandle k i =>
      rw [parseTagF_methodHandle]
      cases hk : irMethodRefKindFrom k with
      | error e =>
        have h2 := irMethodRefKindFrom_ne k
        rw [hk] at h2
        simpa [hk] using h2
      | ok kind =>
        cases hpi : parseTagIdxF f i raw formed with
        | error e =>
          have h1 := hidx i (by simp [ioCpTagRefIdxs])
          rw [hpi] at h1
          simpa [hpi] using h1
        | ok u => simp [hpi]
    | MethodType d =>
      rw [parseTagF_methodType]
      cases hpi : parseTagIdxF f d raw formed with
      | error e =>
        have h1 := hidx d (by simp [ioCpTagRefIdxs])
        rw [hpi] at h1
        simpa [hpi] using h1
      | ok u =>
        cases hcu : cpUtf8RefNew d u with
        | error e =>
          have h2 := cpUtf8RefNew_ne d u
          rw [hcu] at h2
          simpa [hcu] using h2
        | ok r => simp [hcu]
    | InvokeDynamic b n =>
      rw [parseTagF_invokeDynamic]
      cases hpi : parseTagIdxF f n raw formed with
      | error e =>
        have h1 := hidx n (by simp [ioCpTagRefIdxs])
        rw [hpi] at h1
        simpa [hpi] using h1
      | ok u => cases u <;> simp
    | Module n =>
      rw [parseTagF_module]
      cases hpi : parseTagIdxF f n raw formed with
      | error e =>
        have h1 := hidx n (by simp [ioCpTagRefIdxs])
        rw [hpi] at h1
        simpa [hpi] using h1
      | ok u =>
        cases hcu : cpUtf8RefNew n u with
        | error e =>
          have h2 := cpUtf8RefNew_ne n u
          rw [hcu] at h2
          simpa [hcu] using h2
        | ok r => simp [hcu]
    | Package n =>
      rw [parseTagF_package]
      cases hpi : parseTagIdxF f n raw formed with
      | error e =>
        have h1 := hidx n (by simp [ioCpTagRefIdxs])
        rw [hpi] at h1
        simpa [hpi] using h1
      | ok u =>
        cases hcu : cpUtf8RefNew n u with
        | error e =>
          have h2 := cpUtf8RefNew_ne n u
          rw [hcu] at h2
          simpa [hcu] using h2
        | ok r => simp [hcu]

theorem cpFromIoGo_ne (fuel : Nat) (raw : List IOCpTag) :
    ∀ (pending : List IOCpTag) (formed : List IRCpTag),
    (∀ t ∈ pending, ∀ formed2,
      parseTagF fuel t raw formed2 ≠ .error .outOfFuel) →
    cpFromIoGo fuel raw pending formed ≠ .error .outOfFuel := by
  intro pending
  induction pending with
  | nil => intro formed _; simp [cpFromIoGo]
  | cons t pending ih =>
    intro formed hall
    cases hres : parseTagF fuel t raw formed with
    | error e =>
      have h1 := hall t (List.mem_cons_self t pending) formed
      rw [hres] at h1
      simpa [cpFromIoGo, hres] using h1
    | ok tag =>
      rw [show cpFromIoGo fuel raw (t :: pending) formed =
        (match parseTagF fuel t raw formed with
         | .error e => .error e
         | .ok tag => cpFromIoGo fuel raw pending (formed ++ [tag]))
        from rfl]
      rw [hres]
      exact ih (formed ++ [tag])
        (fun u hu f2 => hall u (List.mem_cons_of_mem t hu) f2)

/-- C8 (amended): the lifter resolves references by recursion keyed by
pool index, and it terminates on every pool whose reference graph is
acyclic - witnessed by any measure m decreasing along reference edges -
with recursion depth bounded by that measure; no visited set exists, and
cyclic references recurse forever instead of being rejected
(see the counterexample). -/
theorem c8_acyclic_lift_completes (raw : List IOCpTag) (m : Nat → Nat)
    (hm : ∀ p q, RefEdge raw p q → m q < m p) (fuel : Nat)
    (hf : ∀ p, p < raw.length → m p < fuel) :
    cpFromIoF fuel raw ≠ .error .outOfFuel := by
  rw [cpFromIoF]
  apply cpFromIoGo_ne
  intro t ht formed2
  obtain ⟨p, hp⟩ := List.getElem?_of_mem ht
  have hlen : p < raw.length := (List.getElem?_eq_some_iff.1 hp).1
  exact parseTagF_measure_completes raw m hm fuel p t hp (hf p hlen) formed2

/-- Witness for C8 (amended) on the two-entry forward-reference pool
[Class 2, Utf8 "x"] with measure 1, 0 and fuel 2. -/
theorem c8_acyclic_lift_completes_witness :
    cpFromIoF 2 [IOCpTag.Class 2, IOCpTag.Utf8 1 [120]] ≠
      .error .outOfFuel := by
  apply c8_acyclic_lift_completes [IOCpTag.Class 2, IOCpTag.Utf8 1 [120]]
    (fun p => if p = 0 then 1 else 0)
  · rintro p q ⟨t, idx, hget, hmem, h1, rfl, hlen⟩
    have hp2 : p < 2 := by
      have := (List.getElem?_eq_some_iff.1 hget).1
      simpa using this
    interval_cases p
    · have ht : t = IOCpTag.Class 2 := by
        simp at hget
        exact hget.symm
      subst ht
      simp [ioCpTagRefIdxs] at hmem
      subst hmem
      simp
    · have ht : t = IOCpTag.Utf8 1 [120] := by
        simp at hget
        exact hget.symm
      subst ht
      simp [ioCpTagRefIdxs] at hmem
  · intro p hp
    simp at hp
    interval_cases p <;> simp

/-- C9: the cp_count - 1 computation of IOClassFile::read underflows
exactly when cp_count = 0: for cp_count >= 1 it yields cp_count - 1
without underflow, while for cp_count = 0 it aborts the process (and so
does the whole reader on any input whose cp_count field is zero) instead
of returning an error value. -/
theorem c9_cp_count_underflow (b8 b9 : Nat) (h : 1 ≤ b8 * 256 + b9) :
    cpEntryCount (b8 * 256 + b9) = .ok (b8 * 256 + b9 - 1) ∧
    cpEntryCount 0 = .error (.panicked .subtractOverflow) ∧
    ∀ (x1 x2 x3 x4 : Nat) (rest : List Nat), ioClassFileRead
      (202 :: 254 :: 186 :: 190 :: x1 :: x2 :: x3 :: x4 :: 0 :: 0 :: rest) =
      .error (.panicked .subtractOverflow) := by
  refine ⟨?_, rfl, fun x1 x2 x3 x4 rest => rfl⟩
  rw [cpEntryCount, if_neg (by omega)]

/-- Witness for C9 at cp_count = 1. -/
theorem c9_witness :
    1 ≤ 0 * 256 + 1 ∧ cpEntryCount (0 * 256 + 1) = .ok (0 * 256 + 1 - 1) :=
  ⟨by decide, (c9_cp_count_underflow 0 1 (by decide)).1⟩

/-- C1 (code bug): reading a class file with a Package constant (tag
byte 20) succeeds, but IOCpTag::id maps Package to 19 - the Module tag,
contradicting the declared discriminant Package = 20 - so
write(read(b)) differs from b at the tag byte and the I/O round-trip
fails. -/
theorem c1_package_written_as_19 :
    ioClassFileRead packageClassBytes = .ok (packageClassFile, []) ∧
    ioCpTagId (.Package 1) = 19 ∧
    ioClassFileWrite packageClassFile ≠ packageClassBytes ∧
    ioClassFileWrite packageClassFile =
      [0xCA, 0xFE, 0xBA, 0xBE, 0, 0, 0, 0x34, 0, 2, 19, 0, 1,
       0, 0, 0, 0, 0, 0, 0, 0, 0, 0, 0, 0, 0, 0] := by decide

/-- C3 (code bug): the reader's loop gives a Long entry a single
iteration of the cp_count - 1 entry reads instead of two slots: reading
the two physical entries Long(5), Utf8 "x" consumes exactly their bytes,
so with declared cp_count = 4 the reader demands a third entry and
misparses the following access-flags bytes as a constant tag 0, aborting
on the unimplemented tag. -/
theorem c3_long_occupies_one_physical_slot :
    readCpEntries 2 [5, 0, 0, 0, 0, 0, 0, 0, 5, 1, 0, 1, 120] =
      .ok ([.Long [0, 0, 0, 0, 0, 0, 0, 5], .Utf8 1 [120]], []) ∧
    ioClassFileRead longPoolClassBytes =
      .error (.panicked .unimplementedTag) := by decide

/-- C4 (code bug): for frame-type byte 65 with verification-type tag 1
the source computes offset_delta as 64 - 65 on u8 - 255 under release
wrap-around (a subtract-with-overflow abort in debug builds) - instead of
the specified 65 - 64 = 1; only frame type 64 (offset 0) agrees with the
specification. -/
theorem c4_offset_delta_reversed :
    stackMapFrameNew [65, 1] =
      .ok (.SameLocals1StackItemFrame 65 255 .IntegerVariableInfo, []) ∧
    stackMapFrameNew [64, 1] =
      .ok (.SameLocals1StackItemFrame 64 0 .IntegerVariableInfo, []) := by
  decide

/-- C5 (counterexample): a constant-pool tag byte outside the known set
does not produce an UnknownCpTag error value - IOCpTag::read aborts the
process via unimplemented! - and an unrecognised attribute name does not
produce an UnknownAttribute error value - IRAttribute::new aborts via
panic!. -/
theorem c5_unknown_inputs_panic :
    ioCpTagRead [2] = .error (.panicked .unimplementedTag) ∧
    irAttributeNewF 1 ⟨strCodes ("FooBar"), 1⟩ [] [] =
      .error (.panicked .unparsedAttribute) :=
  ⟨rfl, rfl⟩

/-- C5 (amended): byte-level failures such as a wrong magic number are
returned to the caller as error values, but an unknown constant-pool tag
byte and an unrecognised attribute name abort the process (panics),
not returned errors. -/
theorem c5_panics_not_error_values :
    (∀ rest : List Nat, ioCpTagRead (2 :: rest) =
      .error (.panicked .unimplementedTag)) ∧
    (∀ fuel : Nat, irAttributeNewF (fuel + 1) ⟨strCodes ("FooBar"), 1⟩ [] [] =
      .error (.panicked .unparsedAttribute)) ∧
    ioClassFileRead [0, 0, 0, 0] = .error .invalidMagic :=
  ⟨fun _ => rfl, fun _ => rfl, rfl⟩

/-- C6 (counterexample): decode applied to sixteen raw 0x00 bytes
succeeds with a string of sixteen U+0000 characters - the SIMD fast path
bulk-copies any 16-byte all-ASCII chunk, raw zeros included, without the
null check - refuting the claim that every input containing a raw 0x00
yields NullByteInInput. -/
theorem c6_simd_skips_nul_check :
    mutf8Decode (List.replicate 16 0) = .ok (List.replicate 16 0) := by decide

/-- C6 (amended): a raw 0x00 byte reached by the scalar loop as a
leading byte yields NullByteInInput - in particular any input shorter
than 16 bytes that starts with 0x00 - and the two-byte sequence
0xC0 0x80 decodes to the one-character string U+0000. -/
theorem c6_nul_scalar_path (rest : List Nat) (h : rest.length < 15) :
    mutf8Decode (0 :: rest) = .error .NullByteInInput ∧
    mutf8Decode [0xC0, 0x80] = .ok [0] := by
  constructor
  · have hfs : fastSkip (0 :: rest) = ([], 0 :: rest) := by
      rw [fastSkip]
      show fastSkipAux (rest.length + 1) (0 :: rest) = ([], 0 :: rest)
      rw [fastSkipAux, if_neg]
      intro hcon
      have h16 := hcon.1
      simp at h16
      omega
    show (match decodeLoop (fastSkip (0 :: rest)).2 with
      | Except.error e => Except.error e
      | Except.ok out =>
        match utf8Parse ((fastSkip (0 :: rest)).1 ++ out) with
        | some s => Except.ok s
        | none => Except.error MUTFError.FromUTF8Err) =
      Except.error MUTFError.NullByteInInput
    rw [hfs]
    dsimp only
    rw [show decodeLoop (0 :: rest) = .error .NullByteInInput from rfl]
  · decide

/-- Witness for C6 (amended) on the one-byte input 0x00. -/
theorem c6_nul_scalar_path_witness :
    ([] : List Nat).length < 15 ∧
    (mutf8Decode (0 :: []) = .error .NullByteInInput ∧
     mutf8Decode [0xC0, 0x80] = .ok [0]) :=
  ⟨by decide, c6_nul_scalar_path [] (by decide)⟩

/-- C2 (counterexample): U+8000 is a nonzero BMP code point above
0x7FF, yet it encodes as 6 bytes (not 3), and decoding that encoding
yields U+10080, not U+8000 - so decode(encode(s)) = s fails on the
one-character string U+8000. -/
theorem c2_not_invertible_at_0x8000 :
    mutf8Encode [0x8000] = [0xED, 0xA0, 0xA0, 0xED, 0xB0, 0x80] ∧
    mutf8Decode (mutf8Encode [0x8000]) = .ok [0x10080] ∧
    mutf8Decode (mutf8Encode [0x8000]) ≠ .ok [0x8000] := by decide

/-- Witness for C2 (amended) on a string exercising the nul, ASCII,
2-byte and 3-byte classes. -/
theorem c2_roundtrip_small_witness :
    (∀ c ∈ [0, 65, 339, 8226], c < 32768) ∧
    mutf8Decode (mutf8Encode [0, 65, 339, 8226]) = .ok [0, 65, 339, 8226] :=
  ⟨by decide, c2_roundtrip_small [0, 65, 339, 8226] (by decide)⟩

/-- C7 (counterexample): a SourceFile attribute whose 3-byte payload
leaves one byte unconsumed after the grammar accepts decodes
successfully; no TrailingBytes error is raised. -/
theorem c7_no_trailing_byte_check :
    irAttributeInfoFromIoF 2 sourceFilePool ⟨1, 3, [0, 2, 255]⟩ =
      .ok (.mk ⟨strCodes ("SourceFile"), 1⟩ 3 (.SourceFile ⟨[120], 2⟩)) := rfl

/-- Witness for C10 on the pool [Utf8 "a", Utf8 "b"] with index 1:
Exceptions resolves to the entry "b" at physical position 1, while
SourceFile resolves the same index to "a" at position 0. -/
theorem c10_exceptions_off_by_one_witness :
    irAttributeNewF 1 ⟨strCodes ("Exceptions"), 9⟩ [.Utf8 [97], .Utf8 [98]]
        [0, 1, 1 / 256, 1 % 256] = .ok (.Exceptions [⟨[98], 1⟩], []) ∧
    irAttributeNewF 1 ⟨strCodes ("SourceFile"), 9⟩ [.Utf8 [97], .Utf8 [98]]
        [1 / 256, 1 % 256] = .ok (.SourceFile ⟨[97], 1⟩, []) :=
  c10_exceptions_off_by_one [.Utf8 [97], .Utf8 [98]] 1 [98] [97] 0
    (by decide) (by decide) (by decide) (by decide)
